import Mathlib

/-!
Verification of the UCP-AGENT checkout backend.

This file gives a shallow embedding, in Lean 4, of the parts of the
repository that the specification talks about:

* `backend/buyer_consent.py` — the buyer-consent extension (`merge_consent`);
* `backend/discount.py` — the discount extension (`apply_discount_code`,
  `calculate_discount_amount`, `SAMPLE_DISCOUNTS`);
* `backend/embedded_checkout.py` — the embedded (EP) session layer
  (`EmbeddedCheckoutSession`, delegation handling, `parse_ep_query_params`);
* `backend/embedded_checkout_routes.py` — the delegation filtering done by
  the `get_embedded_checkout` route;
* `backend/ap2_mandates.py` — JCS canonicalization, base64url, the detached
  JWS merchant-authorization signer and `Ap2Session.verify_complete_request`;
* `backend/mcp_server/streamable_http_server.py` — the MCP tool-call
  adapter (`create_checkout`, `get_checkout`, `update_checkout`,
  `complete_checkout`, `cancel_checkout`).

The `RetailStore` class (`backend/store.py`) is imported by the adapters but
its source file is absent from the tree; its operations are modelled from
the specification (each such definition carries a doc comment starting with
"Modelled from the spec:").

Python idioms are translated as follows: dictionaries with a fixed key set
become structures; `Optional` values become `Option`; raised `ValueError`s
become `Except String`; the global mutable store becomes explicit state
passing; Python integers are `Int` (amounts in cents); truthiness tests on
strings (`if not s`) test for emptiness.
-/

namespace UCP

/-! ### Buyer consent extension (`backend/buyer_consent.py`) -/

/-- The `BuyerConsent` pydantic model: four independent tri-state flags,
each `none` ("unset") distinct from `some false`. -/
structure BuyerConsent where
  analytics : Option Bool
  preferences : Option Bool
  marketing : Option Bool
  sale_of_data : Option Bool
deriving DecidableEq, Repr

/-- The consent object with every flag unset (pydantic defaults). -/
def BuyerConsent.unset : BuyerConsent :=
  ⟨none, none, none, none⟩

/-- One field of the Python merge loop
`if value is not None: merged_data[key] = value`. -/
def mergeField (existing update : Option Bool) : Option Bool :=
  match update with
  | some v => some v
  | none => existing

/-- Embedding of `merge_consent(existing, update)`: starts from
`existing.model_dump()` and overwrites exactly the keys whose update value
is not `None`. When `existing` is `None` the update is returned as is. -/
def merge_consent (existing : Option BuyerConsent) (update : BuyerConsent) :
    BuyerConsent :=
  match existing with
  | none => update
  | some e =>
    { analytics := mergeField e.analytics update.analytics
      preferences := mergeField e.preferences update.preferences
      marketing := mergeField e.marketing update.marketing
      sale_of_data := mergeField e.sale_of_data update.sale_of_data }

/-! ### Discount extension (`backend/discount.py`) -/

/-- A single entry of the `available_discounts` dict.  The Python code reads
the keys with `.get`, so every key may be absent; `expired` is tested for
truthiness (absent counts as not expired). -/
structure DiscountInfo where
  title : Option String := none
  amount : Option Int := none
  percent : Option Int := none
  priority : Option Int := none
  expired : Bool := false
deriving DecidableEq, Repr

/-- The `AppliedDiscount` pydantic model. -/
structure AppliedDiscount where
  id : Option String := none
  code : Option String := none
  title : String
  amount : Int
  automatic : Bool := false
  priority : Option Int := none
deriving DecidableEq, Repr

/-- Error codes for rejected discount codes (`DiscountErrorCode`). -/
inductive DiscountErrorCode where
  | discount_code_expired
  | discount_code_invalid
  | discount_code_already_applied
  | discount_code_combination_disallowed
  | discount_code_user_not_logged_in
  | discount_code_user_ineligible
deriving DecidableEq, Repr

/-- The `DiscountMessage` pydantic model (message for a rejected code). -/
structure DiscountMessage where
  type : String := "warning"
  code : DiscountErrorCode
  path : String
  content : String
deriving DecidableEq, Repr

/-- A single-quote character, written via its code point. -/
def sq : String := String.singleton (Char.ofNat 39)

/-- Uppercasing of one ASCII character, as `str.upper` acts on the
ASCII range (the discount table keys are ASCII). -/
def upperChar (c : Char) : Char :=
  if 97 ≤ c.toNat ∧ c.toNat ≤ 122 then Char.ofNat (c.toNat - 32) else c

/-- Embedding of Python `code.upper()` (character-wise uppercasing). -/
def pyUpper (s : String) : String := ⟨s.data.map upperChar⟩

/-- Lookup in a Python dict modelled as an association list with unique
keys (`available_discounts[code_upper]`). -/
def dictGet {α : Type} (table : List (String × α)) (key : String) : Option α :=
  match table.find? (fun kv => kv.1 = key) with
  | some kv => some kv.2
  | none => none

/-- Embedding of `apply_discount_code(code, available_discounts)`:
uppercases the code, looks it up, rejects unknown codes with
`discount_code_invalid` and expired codes with `discount_code_expired`,
otherwise builds the `AppliedDiscount` (with the code as submitted). -/
def apply_discount_code (code : String)
    (available_discounts : List (String × DiscountInfo)) :
    Option AppliedDiscount × Option DiscountMessage :=
  let code_upper := pyUpper code
  match dictGet available_discounts code_upper with
  | none =>
    (none, some { code := .discount_code_invalid
                  path := "$.discounts.codes[0]"
                  content := "Code " ++ sq ++ code ++ sq ++ " is not valid" })
  | some discount_info =>
    if discount_info.expired then
      (none, some { code := .discount_code_expired
                    path := "$.discounts.codes[0]"
                    content := "Code " ++ sq ++ code ++ sq ++ " has expired" })
    else
      (some { code := some code
              title := discount_info.title.getD ("Discount: " ++ code)
              amount := discount_info.amount.getD 0
              priority := some (discount_info.priority.getD 1) },
       none)

/-- Embedding of `calculate_discount_amount(discount, subtotal, line_items)`
(the `line_items` argument is unused in the source). -/
def calculate_discount_amount (discount : AppliedDiscount) (subtotal : Int)
    (line_items : List String) : Int :=
  min discount.amount subtotal

/-- The `SAMPLE_DISCOUNTS` demo table. -/
def SAMPLE_DISCOUNTS : List (String × DiscountInfo) :=
  [ ("SAVE10", { title := some "$10 Off Your Order", amount := some 1000,
                 priority := some 1 }),
    ("SAVE20", { title := some "$20 Off Your Order", amount := some 2000,
                 priority := some 1 }),
    ("PERCENT10", { title := some "10% Off", amount := some 0,
                    percent := some 10, priority := some 1 }),
    ("WELCOME", { title := some "Welcome Discount", amount := some 500,
                  priority := some 2 }),
    ("EXPIRED", { title := some "Expired Code", amount := some 1000,
                  expired := true }) ]

/-! ### Embedded checkout (EP binding), `backend/embedded_checkout.py` -/

/-- Delegation identifier `EP_DELEGATE_PAYMENT_INSTRUMENTS`. -/
def EP_DELEGATE_PAYMENT_INSTRUMENTS : String := "payment.instruments_change"

/-- Delegation identifier `EP_DELEGATE_PAYMENT_CREDENTIAL`. -/
def EP_DELEGATE_PAYMENT_CREDENTIAL : String := "payment.credential"

/-- Delegation identifier `EP_DELEGATE_FULFILLMENT_ADDRESS`. -/
def EP_DELEGATE_FULFILLMENT_ADDRESS : String := "fulfillment.address_change"

/-- The `SUPPORTED_DELEGATIONS` list: the delegations this server
implements. -/
def SUPPORTED_DELEGATIONS : List String :=
  [EP_DELEGATE_PAYMENT_INSTRUMENTS,
   EP_DELEGATE_PAYMENT_CREDENTIAL,
   EP_DELEGATE_FULFILLMENT_ADDRESS]

/-- One entry of the session message-history log (`log_message` records the
direction and the message; the method name identifies the message here). -/
structure LogEntry where
  direction : String
  method : String
deriving DecidableEq, Repr

/-- The `EmbeddedCheckoutSession` state (the `uuid4` session id is dropped:
it is never consulted by the session logic). -/
structure EmbeddedCheckoutSession where
  checkout_id : String
  ec_version : String
  ec_auth : Option String
  requested_delegations : List String
  accepted_delegations : List String
  is_ready : Bool
  is_started : Bool
  is_completed : Bool
  message_history : List LogEntry
deriving DecidableEq, Repr

/-- The session as built by `EmbeddedCheckoutSession.__init__`. -/
def EmbeddedCheckoutSession.init (checkout_id ec_version : String)
    (requested_delegations : List String) (ec_auth : Option String) :
    EmbeddedCheckoutSession :=
  { checkout_id := checkout_id
    ec_version := ec_version
    ec_auth := ec_auth
    requested_delegations := requested_delegations
    accepted_delegations := []
    is_ready := false
    is_started := false
    is_completed := false
    message_history := [] }

/-- Embedding of `EmbeddedCheckoutSession.accept_delegation`: accept a
delegation if it was requested and is supported, appending it to
`accepted_delegations` unless already present. -/
def accept_delegation (s : EmbeddedCheckoutSession) (delegation : String) :
    EmbeddedCheckoutSession × Bool :=
  if delegation ∈ s.requested_delegations ∧ delegation ∈ SUPPORTED_DELEGATIONS then
    (if delegation ∈ s.accepted_delegations then (s, true)
     else ({ s with accepted_delegations := s.accepted_delegations ++ [delegation] },
           true))
  else (s, false)

/-- The loop body of `accept_all_supported_delegations` over a list of
delegations. -/
def acceptLoop (s : EmbeddedCheckoutSession) : List String → EmbeddedCheckoutSession
  | [] => s
  | d :: rest => acceptLoop (accept_delegation s d).1 rest

/-- Embedding of `accept_all_supported_delegations`: accepts every requested
delegation that is supported, returning the updated session. -/
def accept_all_supported_delegations (s : EmbeddedCheckoutSession) :
    EmbeddedCheckoutSession :=
  acceptLoop s s.requested_delegations

/-- Embedding of `is_delegation_active`. -/
def is_delegation_active (s : EmbeddedCheckoutSession) (delegation : String) :
    Bool :=
  delegation ∈ s.accepted_delegations

/-- Embedding of `log_message`: appends an entry to the history. -/
def log_message (s : EmbeddedCheckoutSession) (direction method : String) :
    EmbeddedCheckoutSession :=
  { s with message_history := s.message_history ++ [⟨direction, method⟩] }

/-- A JSON-RPC request as produced by `EPMessageFactory` (the `jsonrpc`
field is the constant "2.0"; `params` carries the checkout state, kept
opaque here). -/
structure EpRequest (α : Type) where
  id : String
  method : String
  checkout : α
deriving DecidableEq, Repr

/-- Embedding of `EmbeddedCheckoutHandler.create_ready_request`: accepts all
supported requested delegations, builds the `ec.ready` request carrying the
accepted delegations, and logs it as sent. -/
def create_ready_request (s : EmbeddedCheckoutSession) :
    EmbeddedCheckoutSession × (String × List String) :=
  let s1 := accept_all_supported_delegations s
  let message : String × List String := ("ec.ready", s1.accepted_delegations)
  (log_message s1 "sent" "ec.ready", message)

/-- Embedding of `EmbeddedCheckoutHandler.handle_ready_response`: marks the
session ready (the handshake round trip completes). -/
def handle_ready_response (s : EmbeddedCheckoutSession) :
    EmbeddedCheckoutSession :=
  { s with is_ready := true }

/-- Embedding of `EmbeddedCheckoutHandler.create_payment_credential_request`:
returns `none` without touching the session when the `payment.credential`
delegation is not active, otherwise builds and logs the request.  The fresh
`uuid4` request id is passed in as `rid`. -/
def create_payment_credential_request {α : Type} (rid : String)
    (s : EmbeddedCheckoutSession) (checkout : α) :
    Option (EpRequest α) × EmbeddedCheckoutSession :=
  if is_delegation_active s EP_DELEGATE_PAYMENT_CREDENTIAL = false then
    (none, s)
  else
    let request : EpRequest α := ⟨rid, "ec.payment.credential_request", checkout⟩
    (some request, log_message s "sent" request.method)

/-- Embedding of `EmbeddedCheckoutHandler.create_address_change_request`:
returns `none` without touching the session when the
`fulfillment.address_change` delegation is not active, otherwise builds and
logs the request. -/
def create_address_change_request {α : Type} (rid : String)
    (s : EmbeddedCheckoutSession) (checkout : α) :
    Option (EpRequest α) × EmbeddedCheckoutSession :=
  if is_delegation_active s EP_DELEGATE_FULFILLMENT_ADDRESS = false then
    (none, s)
  else
    let request : EpRequest α := ⟨rid, "ec.fulfillment.address_change_request", checkout⟩
    (some request, log_message s "sent" request.method)

/-- Whitespace characters removed by Python `str.strip` (the ASCII ones:
space, tab, newline, carriage return, vertical tab, form feed). -/
def isPySpace (c : Char) : Bool :=
  c.toNat = 32 ∨ c.toNat = 9 ∨ c.toNat = 10 ∨ c.toNat = 13 ∨
    c.toNat = 11 ∨ c.toNat = 12

/-- Embedding of Python `s.strip()`: drops leading and trailing
whitespace. -/
def pyStrip (s : String) : String :=
  ⟨((s.data.dropWhile isPySpace).reverse.dropWhile isPySpace).reverse⟩

/-- Splitting a character list at commas, keeping empty pieces
(Python `s.split(",")`). -/
def splitCommaAux (cur : List Char) : List Char → List (List Char)
  | [] => [cur.reverse]
  | c :: rest =>
    if c = ',' then cur.reverse :: splitCommaAux [] rest
    else splitCommaAux (c :: cur) rest

/-- Embedding of Python `s.split(",")`. -/
def pySplitComma (s : String) : List String :=
  (splitCommaAux [] s.data).map (fun cs => ⟨cs⟩)

/-- Embedding of the Python list comprehension
`[d.strip() for d in ec_delegate.split(",") if d.strip()]`. -/
def splitDelegations (s : String) : List String :=
  ((pySplitComma s).map pyStrip).filter (fun d => d ≠ "")

/-- Parsed result of `parse_ep_query_params`. -/
structure EpParams where
  version : String
  delegations : List String
  auth : Option String
deriving DecidableEq, Repr

/-- Count of a character in a string (Python `str.count` for a single
character). -/
def countChar (s : String) (c : Char) : Nat :=
  (s.data.filter (fun x => x = c)).length

/-- Embedding of `parse_ep_query_params(ec_version, ec_delegate, ec_auth)`:
raises when the version is missing or not of the `YYYY-MM-DD` shape (two
dashes), and otherwise returns the split delegation list unchanged.
Python truthiness on the optional strings maps absent and empty to the
same branch. -/
def parse_ep_query_params (ec_version ec_delegate ec_auth : Option String) :
    Except String EpParams :=
  match ec_version with
  | none => .error "ec_version parameter is required"
  | some v =>
    if v = "" then .error "ec_version parameter is required"
    else if ¬ countChar v (Char.ofNat 45) = 2 then
      .error "ec_version must be in YYYY-MM-DD format"
    else
      let delegations :=
        match ec_delegate with
        | none => []
        | some d => if d = "" then [] else splitDelegations d
      .ok { version := v, delegations := delegations, auth := ec_auth }

/-- Embedding of `create_embedded_checkout_session`: parses the query
parameters and builds the session. -/
def create_embedded_checkout_session (checkout_id ec_version : String)
    (ec_delegate : String) (ec_auth : Option String) :
    Except String EmbeddedCheckoutSession :=
  match parse_ep_query_params (some ec_version) (some ec_delegate) ec_auth with
  | .error e => .error e
  | .ok params =>
    .ok (EmbeddedCheckoutSession.init checkout_id params.version
          params.delegations params.auth)

/-- Embedding of the delegation parsing done by the `get_embedded_checkout`
route (`backend/embedded_checkout_routes.py`): split the comma-separated
list and keep only supported delegations; unsupported entries are dropped
without raising. -/
def route_delegations (ec_delegate : Option String) : List String :=
  match ec_delegate with
  | none => []
  | some d =>
    if d = "" then []
    else (splitDelegations d).filter (fun x => x ∈ SUPPORTED_DELEGATIONS)

/-! ### AP2 complete-request verification (`backend/ap2_mandates.py`) -/

/-- AP2-specific error codes (`Ap2ErrorCode`). -/
inductive Ap2ErrorCode where
  | mandate_required
  | agent_missing_key
  | mandate_invalid_signature
  | mandate_expired
  | mandate_scope_mismatch
  | merchant_authorization_invalid
  | merchant_authorization_missing
deriving DecidableEq, Repr

/-- The `ap2` object of a complete_checkout request
(`ap2_request.get("checkout_mandate")` may be absent). -/
structure Ap2CompleteRequest where
  checkout_mandate : Option String
deriving DecidableEq, Repr

/-- Embedding of `Ap2Session.verify_complete_request`.  The mandate
verifier is the injected `MandateVerifier.verify_mandate` dependency,
passed as the function `verify_mandate` from the mandate string and the
expected checkout to `(is_valid, error)`.  Python truthiness: an absent or
empty `checkout_mandate` takes the `mandate_required` branch. -/
def verify_complete_request {α : Type}
    (verify_mandate : String → α → Bool × Option String)
    (ap2_request : Ap2CompleteRequest) (expected_checkout : α) :
    Bool × Option String × Option Ap2ErrorCode :=
  match ap2_request.checkout_mandate with
  | none => (false, some "ap2.checkout_mandate is required", some .mandate_required)
  | some m =>
    if m = "" then
      (false, some "ap2.checkout_mandate is required", some .mandate_required)
    else
      let r := verify_mandate m expected_checkout
      if r.1 = false then (false, r.2, some .mandate_invalid_signature)
      else (true, none, none)

/-! ### JSON values and JCS canonicalization (`backend/ap2_mandates.py`)

Checkout payloads are JSON dictionaries; numeric values occurring in
checkouts are integers (amounts in cents), so JSON numbers are modelled as
`Int`. -/

/-- A JSON value. -/
inductive JsonV where
  | null
  | bool (b : Bool)
  | num (n : Int)
  | str (s : String)
  | arr (xs : List JsonV)
  | obj (fields : List (String × JsonV))
deriving Repr

/-- Hexadecimal digit character (lowercase, as `json.dumps` emits). -/
def hexDigit (n : Nat) : Char :=
  if n < 10 then Char.ofNat (48 + n) else Char.ofNat (87 + n)

/-- Escaping of one character inside a JSON string, as `json.dumps` does
with `ensure_ascii=False`: quote and backslash are escaped, control
characters use the two-character escapes or `\u00XX`, everything else is
emitted raw. -/
def jsonEscapeChar (c : Char) : String :=
  if c = '"' then "\\\""
  else if c = '\\' then "\\\\"
  else if c = '\n' then "\\n"
  else if c = '\t' then "\\t"
  else if c = '\r' then "\\r"
  else if c = Char.ofNat 8 then "\\b"
  else if c = Char.ofNat 12 then "\\f"
  else if c.toNat < 32 then
    "\\u00" ++ String.singleton (hexDigit (c.toNat / 16)) ++
      String.singleton (hexDigit (c.toNat % 16))
  else String.singleton c

/-- Escaping of a JSON string body. -/
def jsonEscape (s : String) : String :=
  String.join (s.data.map jsonEscapeChar)

/-- Insertion of a field into a key-sorted field list (code-point
lexicographic order on keys, as Python string comparison). -/
def insertField (p : String × JsonV) :
    List (String × JsonV) → List (String × JsonV)
  | [] => [p]
  | q :: rest => if p.1 ≤ q.1 then p :: q :: rest else q :: insertField p rest

/-- Insertion sort of an object field list by key (`sort_keys=True` sorts
each object by key before emitting). -/
def insertSortFields : List (String × JsonV) → List (String × JsonV)
  | [] => []
  | p :: rest => insertField p (insertSortFields rest)

mutual
/-- Recursive key-sorting of every object in a JSON value.  Serializing the
sorted value with the plain serializer below is exactly
`json.dumps(obj, sort_keys=True, ...)`, which sorts the items of each
object as it emits them. -/
def sortJsonV : JsonV → JsonV
  | .null => .null
  | .bool b => .bool b
  | .num n => .num n
  | .str s => .str s
  | .arr xs => .arr (sortJsonArr xs)
  | .obj fs => .obj (insertSortFields (sortJsonFields fs))

/-- Key-sorting mapped over an array. -/
def sortJsonArr : List JsonV → List JsonV
  | [] => []
  | x :: xs => sortJsonV x :: sortJsonArr xs

/-- Key-sorting mapped over the values of a field list. -/
def sortJsonFields : List (String × JsonV) → List (String × JsonV)
  | [] => []
  | (k, v) :: rest => (k, sortJsonV v) :: sortJsonFields rest
end

mutual
/-- Compact JSON serialization with separators `(",", ":")` and
`ensure_ascii=False`, i.e. no insignificant whitespace, UTF-8 text. -/
def serializeJson : JsonV → String
  | .null => "null"
  | .bool true => "true"
  | .bool false => "false"
  | .num n => toString n
  | .str s => "\"" ++ jsonEscape s ++ "\""
  | .arr xs => "[" ++ serializeArr xs ++ "]"
  | .obj fs => "\x7b" ++ serializeFields fs ++ "\x7d"

/-- Comma-joined serialization of array elements. -/
def serializeArr : List JsonV → String
  | [] => ""
  | [x] => serializeJson x
  | x :: y :: rest => serializeJson x ++ "," ++ serializeArr (y :: rest)

/-- Comma-joined serialization of `"key":value` pairs. -/
def serializeFields : List (String × JsonV) → String
  | [] => ""
  | [(k, v)] => "\"" ++ jsonEscape k ++ "\":" ++ serializeJson v
  | (k, v) :: q :: rest =>
    "\"" ++ jsonEscape k ++ "\":" ++ serializeJson v ++ "," ++
      serializeFields (q :: rest)
end

/-- UTF-8 encoding of one character, as a list of byte values. -/
def utf8Char (c : Char) : List Nat :=
  let n := c.toNat
  if n < 128 then [n]
  else if n < 2048 then [192 + n / 64, 128 + n % 64]
  else if n < 65536 then [224 + n / 4096, 128 + n / 64 % 64, 128 + n % 64]
  else [240 + n / 262144, 128 + n / 4096 % 64, 128 + n / 64 % 64, 128 + n % 64]

/-- UTF-8 encoding of a string (`.encode("utf-8")`). -/
def strUtf8 (s : String) : List Nat :=
  (s.data.map utf8Char).flatten

/-- Embedding of `jcs_canonicalize(obj)`:
`json.dumps(obj, ensure_ascii=False, separators=(",", ":"), sort_keys=True)`
encoded as UTF-8 bytes. -/
def jcs_canonicalize (obj : JsonV) : List Nat :=
  strUtf8 (serializeJson (sortJsonV obj))

/-! ### base64url and SHA-256 (`base64url_encode`, `_mock_sign`) -/

/-- The base64url alphabet. -/
def B64URL_ALPHABET : List Char :=
  "ABCDEFGHIJKLMNOPQRSTUVWXYZabcdefghijklmnopqrstuvwxyz0123456789-_".data

/-- The alphabet character for a 6-bit value. -/
def b64Char (n : Nat) : Char := B64URL_ALPHABET.getD n (Char.ofNat 65)

/-- Embedding of `base64url_encode(data)`:
`base64.urlsafe_b64encode` with the `=` padding stripped. -/
def base64url_encode : List Nat → String
  | [] => ""
  | [a] =>
    String.singleton (b64Char (a / 4)) ++ String.singleton (b64Char (a % 4 * 16))
  | [a, b] =>
    String.singleton (b64Char (a / 4)) ++
      String.singleton (b64Char (a % 4 * 16 + b / 16)) ++
      String.singleton (b64Char (b % 16 * 4))
  | a :: b :: c :: rest =>
    String.singleton (b64Char (a / 4)) ++
      String.singleton (b64Char (a % 4 * 16 + b / 16)) ++
      String.singleton (b64Char (b % 16 * 4 + c / 64)) ++
      String.singleton (b64Char (c % 64)) ++
      base64url_encode rest

/-- Truncation to a 32-bit word. -/
def w32 (n : Nat) : Nat := n % 2 ^ 32

/-- Right rotation of a 32-bit word. -/
def rotr (n x : Nat) : Nat := w32 (x / 2 ^ n + x % 2 ^ n * 2 ^ (32 - n))

/-- Logical right shift of a 32-bit word. -/
def shr (n x : Nat) : Nat := x / 2 ^ n

/-- Bitwise complement of a 32-bit word. -/
def not32 (x : Nat) : Nat := 2 ^ 32 - 1 - w32 x

/-- SHA-256 choose function. -/
def sha2Ch (e f g : Nat) : Nat := (e &&& f) ^^^ (not32 e &&& g)

/-- SHA-256 majority function. -/
def sha2Maj (a b c : Nat) : Nat := (a &&& b) ^^^ (a &&& c) ^^^ (b &&& c)

/-- SHA-256 big sigma 0. -/
def bigSigma0 (a : Nat) : Nat := rotr 2 a ^^^ rotr 13 a ^^^ rotr 22 a

/-- SHA-256 big sigma 1. -/
def bigSigma1 (e : Nat) : Nat := rotr 6 e ^^^ rotr 11 e ^^^ rotr 25 e

/-- SHA-256 small sigma 0. -/
def smallSigma0 (x : Nat) : Nat := rotr 7 x ^^^ rotr 18 x ^^^ shr 3 x

/-- SHA-256 small sigma 1. -/
def smallSigma1 (x : Nat) : Nat := rotr 17 x ^^^ rotr 19 x ^^^ shr 10 x

/-- The SHA-256 round constants. -/
def SHA256_K : List Nat :=
  [1116352408, 1899447441, 3049323471, 3921009573, 961987163,
   1508970993, 2453635748, 2870763221, 3624381080, 310598401,
   607225278, 1426881987, 1925078388, 2162078206, 2614888103,
   3248222580, 3835390401, 4022224774, 264347078, 604807628,
   770255983, 1249150122, 1555081692, 1996064986, 2554220882,
   2821834349, 2952996808, 3210313671, 3336571891, 3584528711,
   113926993, 338241895, 666307205, 773529912, 1294757372,
   1396182291, 1695183700, 1986661051, 2177026350, 2456956037,
   2730485921, 2820302411, 3259730800, 3345764771, 3516065817,
   3600352804, 4094571909, 275423344, 430227734, 506948616,
   659060556, 883997877, 958139571, 1322822218, 1537002063,
   1747873779, 1955562222, 2024104815, 2227730452, 2361852424,
   2428436474, 2756734187, 3204031479, 3329325298]

/-- The SHA-256 initial hash values. -/
def SHA256_H0 : List Nat :=
  [1779033703, 3144134277, 1013904242, 2773480762,
   1359893119, 2600822924, 528734635, 1541459225]

/-- Big-endian 8-byte encoding of a natural number. -/
def be8 (n : Nat) : List Nat :=
  [n / 2 ^ 56 % 256, n / 2 ^ 48 % 256, n / 2 ^ 40 % 256, n / 2 ^ 32 % 256,
   n / 2 ^ 24 % 256, n / 2 ^ 16 % 256, n / 2 ^ 8 % 256, n % 256]

/-- Big-endian 4-byte encoding of a 32-bit word. -/
def be4 (n : Nat) : List Nat :=
  [n / 2 ^ 24 % 256, n / 2 ^ 16 % 256, n / 2 ^ 8 % 256, n % 256]

/-- SHA-256 message padding: append `0x80`, zero bytes up to 56 mod 64,
then the bit length as 8 big-endian bytes. -/
def sha256Pad (msg : List Nat) : List Nat :=
  let L := msg.length
  let z := (119 - L % 64) % 64
  msg ++ [128] ++ List.replicate z 0 ++ be8 (L * 8)

/-- Big-endian packing of bytes into 32-bit words. -/
def words16 : List Nat → List Nat
  | b0 :: b1 :: b2 :: b3 :: rest =>
    (((b0 * 256 + b1) * 256 + b2) * 256 + b3) :: words16 rest
  | _ => []

/-- Splitting a byte list into 64-byte blocks. -/
def chunks64 : List Nat → List (List Nat)
  | [] => []
  | a :: rest => ((a :: rest).take 64) :: chunks64 (rest.drop 63)
termination_by l => l.length
decreasing_by
  simp only [List.length_drop, List.length_cons]
  omega

/-- The next word of the SHA-256 message schedule, from the words computed
so far. -/
def nextW (acc : List Nat) : Nat :=
  (smallSigma1 (acc.getD (acc.length - 2) 0) + acc.getD (acc.length - 7) 0 +
   smallSigma0 (acc.getD (acc.length - 15) 0) + acc.getD (acc.length - 16) 0) % 2 ^ 32

/-- Extension of the 16-word block to the 64-word message schedule. -/
def buildW (w : List Nat) : List Nat :=
  (List.range 48).foldl (fun acc _ => acc ++ [nextW acc]) w

/-- One round of the SHA-256 compression function. -/
def compressStep (st : List Nat) (kw : Nat × Nat) : List Nat :=
  match st with
  | [a, b, c, d, e, f, g, h] =>
    let t1 := (h + bigSigma1 e + sha2Ch e f g + kw.1 + kw.2) % 2 ^ 32
    let t2 := (bigSigma0 a + sha2Maj a b c) % 2 ^ 32
    [(t1 + t2) % 2 ^ 32, a, b, c, (d + t1) % 2 ^ 32, e, f, g]
  | other => other

/-- SHA-256 compression of one 64-byte block into the running hash. -/
def compressBlock (h : List Nat) (block : List Nat) : List Nat :=
  let w := buildW (words16 block)
  let st := (SHA256_K.zip w).foldl compressStep h
  (h.zip st).map (fun p => (p.1 + p.2) % 2 ^ 32)

/-- SHA-256 of a byte list (the `hashlib.sha256(...).digest()` used by
`MerchantAuthorizationSigner._mock_sign`). -/
def sha256 (msg : List Nat) : List Nat :=
  (((chunks64 (sha256Pad msg)).foldl compressBlock SHA256_H0).map be4).flatten

/-! ### Merchant-authorization signer (`MerchantAuthorizationSigner`) -/

/-- The signer configuration as the repository constructs it: `Ap2Session`
defaults the signer to `MerchantAuthorizationSigner()` with no private key,
so `_use_mock` is true and the signature function is `_mock_sign` (SHA-256
of the signing input); the ECDSA branch needs the external cryptography
library and a configured key, neither of which the repository provides. -/
structure MerchantAuthorizationSigner where
  kid : String := "merchant_key_1"
  algorithm : String := "ES256"
deriving DecidableEq, Repr

/-- The protected header, serialized as `json.dumps(header)` with default
separators and insertion order `alg`, `kid` (the configured values contain
no characters that need escaping). -/
def headerJson (s : MerchantAuthorizationSigner) : String :=
  "\x7b\"alg\": \"" ++ s.algorithm ++ "\", \"kid\": \"" ++ s.kid ++ "\"\x7d"

/-- Embedding of `_mock_sign(signing_input)`. -/
def mock_sign (signing_input : List Nat) : List Nat := sha256 signing_input

/-- Embedding of `remove_ap2_field(checkout)`: drops the `ap2` key (the
checkout dict has unique keys, so `pop` and filtering agree). -/
def remove_ap2_field (checkout : List (String × JsonV)) :
    List (String × JsonV) :=
  checkout.filter (fun kv => kv.1 ≠ "ap2")

/-- Embedding of `MerchantAuthorizationSigner.sign_checkout(checkout)`:
removes the `ap2` field, canonicalizes with JCS, builds the signing input
`<b64url(header)>.<b64url(payload)>`, signs it, and returns the detached
JWS `<b64url(header)>..<b64url(signature)>`. -/
def sign_checkout (signer : MerchantAuthorizationSigner)
    (checkout : List (String × JsonV)) : String :=
  let payload := remove_ap2_field checkout
  let canonical_bytes := jcs_canonicalize (.obj payload)
  let encoded_header := base64url_encode (strUtf8 (headerJson signer))
  let encoded_payload := base64url_encode canonical_bytes
  let signing_input := strUtf8 (encoded_header ++ "." ++ encoded_payload)
  let signature := mock_sign signing_input
  encoded_header ++ ".." ++ base64url_encode signature

/-- Embedding of Python dict assignment `d[k] = v`: replaces the value in
place when the key exists, appends otherwise. -/
def setDictKey (d : List (String × JsonV)) (k : String) (v : JsonV) :
    List (String × JsonV) :=
  if d.any (fun kv => kv.1 = k) then
    d.map (fun kv => if kv.1 = k then (k, v) else kv)
  else d ++ [(k, v)]

/-- Embedding of `Ap2Session.add_merchant_authorization(checkout)`: signs
the checkout and stores the result under `ap2.merchant_authorization`. -/
def add_merchant_authorization (signer : MerchantAuthorizationSigner)
    (checkout : List (String × JsonV)) : List (String × JsonV) :=
  let merchant_auth := sign_checkout signer checkout
  setDictKey checkout "ap2" (.obj [("merchant_authorization", .str merchant_auth)])

/-! ### Checkout resource and retail store

`backend/mcp_server/streamable_http_server.py` drives a `RetailStore`
imported from `backend/store.py`, a file absent from the source tree.  The
store data and operations below are modelled from the specification
(sections 3 and 4.1); the MCP tool functions further down are translated
from the adapter source. -/

/-- Checkout status (spec section 3). -/
inductive CheckoutStatus where
  | incomplete
  | ready_for_complete
  | completed
  | canceled
deriving DecidableEq, Repr

/-- Whether a status is terminal (`completed` and `canceled` are terminal). -/
def CheckoutStatus.isTerminal : CheckoutStatus → Bool
  | .completed => true
  | .canceled => true
  | _ => false

/-- The order record fabricated on completion. -/
structure Order where
  id : String
deriving DecidableEq, Repr

/-- Buyer contact profile, as the adapter builds it from request data. -/
structure Buyer where
  email : Option String := none
  first_name : Option String := none
  last_name : Option String := none
  full_name : Option String := none
  phone_number : Option String := none
deriving DecidableEq, Repr

/-- One line item: an item reference and a quantity. -/
structure LineItem where
  item_id : String
  quantity : Nat
deriving DecidableEq, Repr

/-- Payment state: the selected instrument reference. -/
structure Payment where
  selected_instrument_id : Option String := none
deriving DecidableEq, Repr

/-- A postal address, as the adapter builds it from a destination dict. -/
structure PostalAddress where
  street_address : Option String := none
  address_locality : Option String := none
  address_country : String := "US"
  postal_code : Option String := none
deriving DecidableEq, Repr

/-- The checkout aggregate (spec section 3): `order` is set only by
completion. -/
structure Checkout where
  id : String
  status : CheckoutStatus
  line_items : List LineItem
  buyer : Option Buyer
  destination : Option PostalAddress
  payment : Payment
  order : Option Order
deriving DecidableEq, Repr

/-- Modelled from the spec: the `RetailStore` backing state
(`backend/store.py` is absent from the tree).  A catalog of available item
identifiers, the checkout map, and a counter for generated identifiers. -/
structure RetailStore where
  catalog : List String
  checkouts : List (String × Checkout)
  next_id : Nat
deriving DecidableEq, Repr

/-- Modelled from the spec: `RetailStore.get_checkout(id)` returns the
stored checkout or `None`. -/
def store_get_checkout (st : RetailStore) (id : String) : Option Checkout :=
  match st.checkouts.find? (fun kv => kv.1 = id) with
  | some kv => some kv.2
  | none => none

/-- Replacement of the stored checkout under a key (Python mutates the
stored object in place; entries with other keys are untouched). -/
def store_set (st : RetailStore) (id : String) (c : Checkout) : RetailStore :=
  { st with checkouts := st.checkouts.map (fun kv => if kv.1 = id then (id, c) else kv) }

/-- Modelled from the spec: the readiness check of `validate_ready`
(section 4.1): buyer contact present, a fulfillment destination resolved,
and a payment instrument selected; returns the reason when not ready. -/
def validate_ready (c : Checkout) : Option String :=
  if c.buyer.isNone then some "buyer information is required"
  else if c.destination.isNone then some "a fulfillment address is required"
  else if c.payment.selected_instrument_id.isNone then
    some "a payment instrument must be selected"
  else none

/-- Modelled from the spec: status re-derivation after a mutation
(section 4.1 key policy): a non-terminal checkout oscillates between
`incomplete` and `ready_for_complete` with the information supplied;
terminal statuses are never overwritten. -/
def derive_status (c : Checkout) : Checkout :=
  if c.status.isTerminal then c
  else if (validate_ready c).isNone then { c with status := .ready_for_complete }
  else { c with status := .incomplete }

/-- Modelled from the spec: `RetailStore.add_to_checkout(meta, item_id,
quantity, checkout_id)`: with no checkout id it creates a checkout holding
the item (`InvalidRequest`/`MerchandiseUnavailable` when the item is
unknown); with an id it adds the item to that checkout
(`NotFound`/`InvalidMutation` errors); status is re-derived afterward. -/
def add_to_checkout (st : RetailStore) (item_id : String) (quantity : Nat)
    (checkout_id : Option String) : Except String (RetailStore × Checkout) :=
  if item_id ∉ st.catalog then
    .error ("Item " ++ item_id ++ " is not available")
  else
    match checkout_id with
    | none =>
      let cid := "checkout_" ++ toString st.next_id
      let c := derive_status
        { id := cid, status := .incomplete,
          line_items := [⟨item_id, quantity⟩], buyer := none,
          destination := none, payment := {}, order := none }
      let st2 : RetailStore :=
        { catalog := st.catalog, checkouts := st.checkouts ++ [(cid, c)],
          next_id := st.next_id + 1 }
      .ok (st2, c)
    | some cid =>
      match store_get_checkout st cid with
      | none => .error ("Checkout " ++ cid ++ " was not found")
      | some c =>
        if c.status.isTerminal then
          .error "Checkout can no longer be modified"
        else
          let items :=
            if c.line_items.any (fun li => li.item_id = item_id) then
              c.line_items.map (fun li =>
                if li.item_id = item_id then
                  { li with quantity := li.quantity + quantity }
                else li)
            else c.line_items ++ [⟨item_id, quantity⟩]
          let c2 := derive_status { c with line_items := items }
          .ok (store_set st cid c2, c2)

/-- Modelled from the spec: `RetailStore.update_checkout(id, item_id,
quantity)` sets the quantity of an existing line item; fails on unknown
checkouts and on terminal checkouts (`InvalidMutation`). -/
def store_update_checkout (st : RetailStore) (cid item_id : String)
    (quantity : Nat) : Except String (RetailStore × Checkout) :=
  match store_get_checkout st cid with
  | none => .error ("Checkout " ++ cid ++ " was not found")
  | some c =>
    if c.status.isTerminal then
      .error "Checkout can no longer be modified"
    else
      let items := c.line_items.map (fun li =>
        if li.item_id = item_id then { li with quantity := quantity } else li)
      let c2 := derive_status { c with line_items := items }
      .ok (store_set st cid c2, c2)

/-- Modelled from the spec: `RetailStore.add_delivery_address(id, address)`
records a fulfillment destination and re-derives the status. -/
def add_delivery_address (st : RetailStore) (cid : String)
    (address : PostalAddress) : Except String (RetailStore × Checkout) :=
  match store_get_checkout st cid with
  | none => .error ("Checkout " ++ cid ++ " was not found")
  | some c =>
    if c.status.isTerminal then
      .error "Checkout can no longer be modified"
    else
      let c2 := derive_status { c with destination := some address }
      .ok (store_set st cid c2, c2)

/-- Modelled from the spec: `RetailStore.start_payment(id)` validates
readiness; it returns the reason string when more information is required
(the adapter tests `isinstance(start_result, str)`), and otherwise records
the computed `ready_for_complete` status. -/
def start_payment (st : RetailStore) (cid : String) :
    Except String (RetailStore × Checkout) :=
  match store_get_checkout st cid with
  | none => .error ("Checkout " ++ cid ++ " was not found")
  | some c =>
    match validate_ready c with
    | some reason => .error reason
    | none =>
      let c2 := derive_status c
      .ok (store_set st cid c2, c2)

/-- Modelled from the spec: `RetailStore.place_order(id)` transitions the
checkout to `completed` and fabricates the order record in the same step;
it fails on terminal checkouts (`AlreadyCompleted`/`AlreadyCanceled`). -/
def place_order (st : RetailStore) (cid : String) :
    Except String (RetailStore × Checkout) :=
  match store_get_checkout st cid with
  | none => .error ("Checkout " ++ cid ++ " was not found")
  | some c =>
    if c.status = .completed then .error "Checkout has already been completed"
    else if c.status = .canceled then .error "Checkout has been canceled"
    else
      let c2 := { c with status := .completed, order := some ⟨"order_" ++ c.id⟩ }
      .ok (store_set st cid c2, c2)

/-- Modelled from the spec: `RetailStore.cancel_checkout(id)` cancels any
non-terminal checkout and fails (`InvalidMutation`) on terminal ones. -/
def store_cancel_checkout (st : RetailStore) (cid : String) :
    Except String (RetailStore × Checkout) :=
  match store_get_checkout st cid with
  | none => .error ("Checkout " ++ cid ++ " was not found")
  | some c =>
    if c.status.isTerminal then
      .error "Checkout can no longer be canceled"
    else
      let c2 := { c with status := .canceled }
      .ok (store_set st cid c2, c2)

/-! ### MCP tool-call adapter (`backend/mcp_server/streamable_http_server.py`)

The tool functions below are translated from the adapter source; the global
mutable `store` becomes an explicit `RetailStore` argument and result. -/

/-- A tool response: the success wrapper or the UCP error structure
`(code, message, severity)`. -/
inductive McpResponse where
  | success (checkout : Checkout)
  | error (code message severity : String)
deriving DecidableEq, Repr

/-- One entry of the `line_items` request list
(`line_item.get("item", \x7b\x7d).get("id")` and
`line_item.get("quantity", 1)`). -/
structure LineItemInput where
  item_id : Option String := none
  quantity : Nat := 1
deriving DecidableEq, Repr

/-- The `buyer` request dict. -/
structure BuyerInput where
  email : Option String := none
  first_name : Option String := none
  last_name : Option String := none
  full_name : Option String := none
  phone_number : Option String := none
deriving DecidableEq, Repr

/-- A fulfillment destination dict from the request. -/
structure DestinationInput where
  street_address : Option String := none
  address_locality : Option String := none
  address_country : Option String := none
  postal_code : Option String := none
deriving DecidableEq, Repr

/-- A fulfillment option group from the request (the adapter reads only
`selected_option_id`, and then does nothing with it). -/
structure GroupInput where
  selected_option_id : Option String := none
deriving DecidableEq, Repr

/-- A fulfillment method dict from the request. -/
structure FulfillmentMethodInput where
  destinations : List DestinationInput := []
  groups : List GroupInput := []
deriving DecidableEq, Repr

/-- The `fulfillment` request dict. -/
structure FulfillmentInput where
  methods : List FulfillmentMethodInput := []
deriving DecidableEq, Repr

/-- The `payment` dict of a complete_checkout request. -/
structure PaymentInput where
  selected_instrument_id : Option String := none
  instruments : List String := []
deriving DecidableEq, Repr

/-- The `PostalAddress` the adapter builds from a destination dict
(`address_country` defaults to "US"). -/
def destToAddress (d : DestinationInput) : PostalAddress :=
  { street_address := d.street_address
    address_locality := d.address_locality
    address_country := d.address_country.getD "US"
    postal_code := d.postal_code }

/-- The `Buyer` the adapter builds from a buyer dict. -/
def buyerInputToBuyer (b : BuyerInput) : Buyer :=
  { email := b.email, first_name := b.first_name, last_name := b.last_name,
    full_name := b.full_name, phone_number := b.phone_number }

/-- Direct attribute assignment `checkout.buyer = Buyer(...)`: the adapter
mutates the stored checkout object in place, bypassing the store (no status
re-derivation happens here). -/
def setBuyer (st : RetailStore) (cid : String) (b : BuyerInput) : RetailStore :=
  match store_get_checkout st cid with
  | none => st
  | some c => store_set st cid { c with buyer := some (buyerInputToBuyer b) }

/-- Direct attribute assignment
`checkout.payment.selected_instrument_id = selected_instrument_id`. -/
def setInstrument (st : RetailStore) (cid : String) (iid : Option String) :
    RetailStore :=
  match store_get_checkout st cid with
  | none => st
  | some c => store_set st cid { c with payment := { selected_instrument_id := iid } }

/-- The loop over the remaining line items of `create_checkout`: entries
without an item id are skipped; a store error aborts the loop (the Python
exception propagates to the handler, keeping the mutations made so far). -/
def addItemsLoop (st : RetailStore) (cid : String) :
    List LineItemInput → RetailStore × Option String
  | [] => (st, none)
  | li :: rest =>
    match li.item_id with
    | none => addItemsLoop st cid rest
    | some iid =>
      match add_to_checkout st iid li.quantity (some cid) with
      | .ok (st2, _) => addItemsLoop st2 cid rest
      | .error e => (st, some e)

/-- The loop over fulfillment methods shared by `create_checkout` and
`update_checkout`: each method with a non-empty destination list records
its first destination as delivery address; `groups` handling is a no-op in
the source. -/
def fulfillLoop (st : RetailStore) (cid : String) :
    List FulfillmentMethodInput → RetailStore × Option String
  | [] => (st, none)
  | m :: rest =>
    match m.destinations with
    | [] => fulfillLoop st cid rest
    | d :: _ =>
      match add_delivery_address st cid (destToAddress d) with
      | .ok (st2, _) => fulfillLoop st2 cid rest
      | .error e => (st, some e)

/-- The line-item loop of `update_checkout`: an item already present in the
checkout gets its quantity updated, a new item is added. -/
def updateItemsLoop (st : RetailStore) (cid : String) :
    List LineItemInput → RetailStore × Option String
  | [] => (st, none)
  | li :: rest =>
    match li.item_id with
    | none => updateItemsLoop st cid rest
    | some iid =>
      match store_get_checkout st cid with
      | none => (st, some ("Checkout " ++ cid ++ " was not found"))
      | some c =>
        if c.line_items.any (fun x => x.item_id = iid) then
          match store_update_checkout st cid iid li.quantity with
          | .ok (st2, _) => updateItemsLoop st2 cid rest
          | .error e => (st, some e)
        else
          match add_to_checkout st iid li.quantity (some cid) with
          | .ok (st2, _) => updateItemsLoop st2 cid rest
          | .error e => (st, some e)

/-- Embedding of the `create_checkout` MCP tool. -/
def mcp_create_checkout (st : RetailStore) (line_items : List LineItemInput)
    (buyer : Option BuyerInput) (fulfillment : Option FulfillmentInput) :
    McpResponse × RetailStore :=
  match line_items with
  | [] =>
    (.error "INVALID_REQUEST" "At least one line item is required" "recoverable", st)
  | first :: rest =>
    match first.item_id with
    | none =>
      (.error "INVALID_LINE_ITEM" "Line item must have an item.id field"
        "recoverable", st)
    | some iid =>
      match add_to_checkout st iid first.quantity none with
      | .error e => (.error "MERCHANDISE_NOT_AVAILABLE" e "requires_buyer_input", st)
      | .ok (st1, c0) =>
        match addItemsLoop st1 c0.id rest with
        | (st2, some e) =>
          (.error "MERCHANDISE_NOT_AVAILABLE" e "requires_buyer_input", st2)
        | (st2, none) =>
          let st3 := match buyer with
            | none => st2
            | some b => setBuyer st2 c0.id b
          let methods := match fulfillment with
            | none => []
            | some f => f.methods
          match fulfillLoop st3 c0.id methods with
          | (st4, some e) =>
            (.error "MERCHANDISE_NOT_AVAILABLE" e "requires_buyer_input", st4)
          | (st4, none) =>
            match store_get_checkout st4 c0.id with
            | some c => (.success c, st4)
            | none =>
              (.error "INTERNAL_ERROR"
                "An unexpected error occurred while creating checkout"
                "recoverable", st4)

/-- Embedding of the `get_checkout` MCP tool. -/
def mcp_get_checkout (st : RetailStore) (id : String) :
    McpResponse × RetailStore :=
  if id = "" then
    (.error "INVALID_REQUEST" "Checkout ID is required" "recoverable", st)
  else
    match store_get_checkout st id with
    | none =>
      (.error "CHECKOUT_NOT_FOUND" ("Checkout with ID " ++ id ++ " was not found")
        "recoverable", st)
    | some c => (.success c, st)

/-- Embedding of the `update_checkout` MCP tool. -/
def mcp_update_checkout (st : RetailStore) (id : String)
    (line_items : List LineItemInput) (buyer : Option BuyerInput)
    (fulfillment : Option FulfillmentInput) : McpResponse × RetailStore :=
  if id = "" then
    (.error "INVALID_REQUEST" "Checkout ID is required" "recoverable", st)
  else
    match store_get_checkout st id with
    | none =>
      (.error "CHECKOUT_NOT_FOUND" ("Checkout with ID " ++ id ++ " was not found")
        "recoverable", st)
    | some _ =>
      let st1 := match buyer with
        | none => st
        | some b => setBuyer st id b
      match updateItemsLoop st1 id line_items with
      | (st2, some e) => (.error "UPDATE_FAILED" e "recoverable", st2)
      | (st2, none) =>
        let methods := match fulfillment with
          | none => []
          | some f => f.methods
        match fulfillLoop st2 id methods with
        | (st3, some e) => (.error "UPDATE_FAILED" e "recoverable", st3)
        | (st3, none) =>
          match store_get_checkout st3 id with
          | some c => (.success c, st3)
          | none =>
            (.error "INTERNAL_ERROR"
              "An unexpected error occurred while updating checkout"
              "recoverable", st3)

/-- Embedding of the `complete_checkout` MCP tool: requires a non-empty
idempotency key, rejects terminal checkouts, validates readiness through
`start_payment`, applies a submitted payment instrument, and places the
order. -/
def mcp_complete_checkout (st : RetailStore) (id idempotency_key : String)
    (payment : Option PaymentInput) : McpResponse × RetailStore :=
  if id = "" then
    (.error "INVALID_REQUEST" "Checkout ID is required" "recoverable", st)
  else if idempotency_key = "" then
    (.error "INVALID_REQUEST" "Idempotency key is required for complete_checkout"
      "recoverable", st)
  else
    match store_get_checkout st id with
    | none =>
      (.error "CHECKOUT_NOT_FOUND" ("Checkout with ID " ++ id ++ " was not found")
        "recoverable", st)
    | some c =>
      if c.status = .completed then
        (.error "CHECKOUT_ALREADY_COMPLETED"
          "This checkout has already been completed" "recoverable", st)
      else if c.status = .canceled then
        (.error "CHECKOUT_CANCELED"
          "This checkout has been canceled and cannot be completed"
          "recoverable", st)
      else
        match start_payment st id with
        | .error reason =>
          (.error "CHECKOUT_INCOMPLETE" reason "requires_buyer_input", st)
        | .ok (st1, _) =>
          let st2 := match payment with
            | none => st1
            | some p =>
              match p.selected_instrument_id with
              | none => st1
              | some sel =>
                if sel ≠ "" ∧ p.instruments ≠ [] then
                  setInstrument st1 id (some sel)
                else st1
          match place_order st2 id with
          | .ok (st3, c3) => (.success c3, st3)
          | .error e => (.error "COMPLETE_FAILED" e "recoverable", st2)

/-- Embedding of the `cancel_checkout` MCP tool. -/
def mcp_cancel_checkout (st : RetailStore) (id : String) :
    McpResponse × RetailStore :=
  if id = "" then
    (.error "INVALID_REQUEST" "Checkout ID is required" "recoverable", st)
  else
    match store_get_checkout st id with
    | none =>
      (.error "CHECKOUT_NOT_FOUND" ("Checkout with ID " ++ id ++ " was not found")
        "recoverable", st)
    | some _ =>
      match store_cancel_checkout st id with
      | .ok (st1, c1) => (.success c1, st1)
      | .error e => (.error "CANCEL_NOT_ALLOWED" e "recoverable", st)

/-- One public tool call, with its request data. -/
inductive McpOp where
  | create (line_items : List LineItemInput) (buyer : Option BuyerInput)
      (fulfillment : Option FulfillmentInput)
  | get (id : String)
  | update (id : String) (line_items : List LineItemInput)
      (buyer : Option BuyerInput) (fulfillment : Option FulfillmentInput)
  | complete (id idempotency_key : String) (payment : Option PaymentInput)
  | cancel (id : String)

/-- Application of one public tool call to the store. -/
def applyOp (st : RetailStore) : McpOp → McpResponse × RetailStore
  | .create line_items buyer fulfillment =>
    mcp_create_checkout st line_items buyer fulfillment
  | .get id => mcp_get_checkout st id
  | .update id line_items buyer fulfillment =>
    mcp_update_checkout st id line_items buyer fulfillment
  | .complete id key payment => mcp_complete_checkout st id key payment
  | .cancel id => mcp_cancel_checkout st id

/-- Store states reachable through the public tool calls, starting from a
fresh store with an arbitrary catalog and no checkouts. -/
inductive ReachableStore : RetailStore → Prop where
  | init (catalog : List String) : ReachableStore ⟨catalog, [], 0⟩
  | step {st : RetailStore} (op : McpOp) :
      ReachableStore st → ReachableStore (applyOp st op).2

/-- The order-iff-completed invariant of one checkout (spec section 3). -/
def CheckoutInv (c : Checkout) : Prop :=
  c.order.isSome ↔ c.status = .completed

/-- The invariant over every checkout held by the store. -/
def StoreInv (st : RetailStore) : Prop :=
  ∀ kv ∈ st.checkouts, CheckoutInv kv.2

/-! ## Theorems -/

/-- C4: merging a partial consent update into an existing consent replaces
exactly the fields explicitly set (non-null) in the update, leaves every
other field of the existing consent unchanged, and never invents values; in
particular `{analytics: true, marketing: false}` merged with
`{marketing: true}` gives `{analytics: true, marketing: true}` with
`preferences` and `sale_of_data` unset. -/
theorem C4_merge_consent_field_overwrite (e u : BuyerConsent) :
    (∀ v, u.analytics = some v → (merge_consent (some e) u).analytics = some v) ∧
    (u.analytics = none → (merge_consent (some e) u).analytics = e.analytics) ∧
    (∀ v, u.preferences = some v → (merge_consent (some e) u).preferences = some v) ∧
    (u.preferences = none → (merge_consent (some e) u).preferences = e.preferences) ∧
    (∀ v, u.marketing = some v → (merge_consent (some e) u).marketing = some v) ∧
    (u.marketing = none → (merge_consent (some e) u).marketing = e.marketing) ∧
    (∀ v, u.sale_of_data = some v → (merge_consent (some e) u).sale_of_data = some v) ∧
    (u.sale_of_data = none → (merge_consent (some e) u).sale_of_data = e.sale_of_data) ∧
    merge_consent (some ⟨some true, none, some false, none⟩)
        ⟨none, none, some true, none⟩ = ⟨some true, none, some true, none⟩ := by
  refine ⟨?_, ?_, ?_, ?_, ?_, ?_, ?_, ?_, by decide⟩ <;>
    first
      | (intro v h; simp [merge_consent, mergeField, h])
      | (intro h; simp [merge_consent, mergeField, h])

/-- C4 witness: the unset-field case of the merge at the concrete example
of the specification. -/
theorem C4_merge_consent_witness :
    (merge_consent (some ⟨some true, none, some false, none⟩)
        ⟨none, none, some true, none⟩).analytics = some true :=
  (C4_merge_consent_field_overwrite ⟨some true, none, some false, none⟩
    ⟨none, none, some true, none⟩).2.1 rfl

/-- C5: the applied discount amount is `min(code.amount, subtotal)` for
every discount and subtotal; in particular `SAVE10` (nominal 1000 cents) on
a subtotal of 500 cents yields 500, never 1000. -/
theorem C5_discount_clamped_to_subtotal :
    (∀ (d : AppliedDiscount) (subtotal : Int) (line_items : List String),
      calculate_discount_amount d subtotal line_items = min d.amount subtotal) ∧
    (∃ d, apply_discount_code "SAVE10" SAMPLE_DISCOUNTS = (some d, none) ∧
      d.amount = 1000 ∧ calculate_discount_amount d 500 [] = 500 ∧
      ¬ calculate_discount_amount d 500 [] = 1000) := by
  refine ⟨fun d subtotal line_items => rfl,
    ⟨{ code := some "SAVE10", title := "$10 Off Your Order", amount := 1000,
       priority := some 1 }, by decide⟩⟩

/-- C10: acceptance, expiry and invalidity of a submitted code depend only
on its uppercased form (the lookup is case-insensitive), while an accepted
code is echoed back exactly as submitted, in its original casing. -/
theorem C10_discount_code_case_insensitive (c1 c2 : String)
    (avail : List (String × DiscountInfo)) (h : pyUpper c1 = pyUpper c2) :
    ((apply_discount_code c1 avail).2.map DiscountMessage.code =
      (apply_discount_code c2 avail).2.map DiscountMessage.code) ∧
    ((apply_discount_code c1 avail).1.map
        (fun d => (d.amount, d.priority, d.automatic)) =
      (apply_discount_code c2 avail).1.map
        (fun d => (d.amount, d.priority, d.automatic))) ∧
    (∀ d, (apply_discount_code c1 avail).1 = some d → d.code = some c1) ∧
    (∀ d, (apply_discount_code c2 avail).1 = some d → d.code = some c2) := by
  unfold apply_discount_code
  rw [h]
  cases hfind : dictGet avail (pyUpper c2) with
  | none => simp [hfind]
  | some info =>
    by_cases hexp : info.expired
    · simp [hfind, hexp]
    · simp [hfind, hexp]

/-- C10 witness: `save10` and `SaVe10` take the same branch over the sample
table, and the accepted discount carries the code as submitted. -/
theorem C10_discount_code_case_witness :
    ((apply_discount_code "save10" SAMPLE_DISCOUNTS).1.map
        (fun d => (d.amount, d.priority, d.automatic)) =
      (apply_discount_code "SaVe10" SAMPLE_DISCOUNTS).1.map
        (fun d => (d.amount, d.priority, d.automatic))) ∧
    (∀ d, (apply_discount_code "save10" SAMPLE_DISCOUNTS).1 = some d →
      d.code = some "save10") :=
  ⟨(C10_discount_code_case_insensitive "save10" "SaVe10" SAMPLE_DISCOUNTS
      (by decide)).2.1,
   (C10_discount_code_case_insensitive "save10" "SaVe10" SAMPLE_DISCOUNTS
      (by decide)).2.2.1⟩

/-- C7: verifying an AP2 completion request rejects with `mandate_required`
when `checkout_mandate` is absent (or empty, which Python truthiness treats
as absent), rejects with `mandate_invalid_signature` when the mandate is
present but the verifier fails it, and succeeds with no error code when the
verifier accepts it. -/
theorem C7_verify_complete_request_cases {α : Type}
    (vm : String → α → Bool × Option String) (req : Ap2CompleteRequest)
    (exp : α) :
    ((req.checkout_mandate = none ∨ req.checkout_mandate = some "") →
      verify_complete_request vm req exp =
        (false, some "ap2.checkout_mandate is required", some .mandate_required)) ∧
    (∀ m, req.checkout_mandate = some m → ¬ m = "" → (vm m exp).1 = false →
      verify_complete_request vm req exp =
        (false, (vm m exp).2, some .mandate_invalid_signature)) ∧
    (∀ m, req.checkout_mandate = some m → ¬ m = "" → (vm m exp).1 = true →
      verify_complete_request vm req exp = (true, none, none)) := by
  refine ⟨?_, ?_, ?_⟩
  · rintro (hm | hm) <;> simp [verify_complete_request, hm]
  · intro m hm hne hv
    simp [verify_complete_request, hm, hne, hv]
  · intro m hm hne hv
    simp [verify_complete_request, hm, hne, hv]

/-- C7 witness: a present, failing mandate at a concrete verifier. -/
theorem C7_verify_complete_request_witness :
    verify_complete_request (fun _ (_ : Unit) => (false, some "bad signature"))
        ⟨some "m.p.s"⟩ () =
      (false, some "bad signature", some .mandate_invalid_signature) ∧
    verify_complete_request (fun _ (_ : Unit) => (true, none)) ⟨none⟩ () =
      (false, some "ap2.checkout_mandate is required", some .mandate_required) :=
  ⟨(C7_verify_complete_request_cases (fun _ _ => (false, some "bad signature"))
      ⟨some "m.p.s"⟩ ()).2.1 "m.p.s" rfl (by decide) rfl,
   (C7_verify_complete_request_cases (fun _ _ => (true, none))
      ⟨none⟩ ()).1 (Or.inl rfl)⟩

lemma accept_delegation_requested (s : EmbeddedCheckoutSession) (d : String) :
    ((accept_delegation s d).1).requested_delegations = s.requested_delegations := by
  unfold accept_delegation
  split
  · split <;> rfl
  · rfl

lemma accept_delegation_mem (s : EmbeddedCheckoutSession) (d x : String) :
    x ∈ ((accept_delegation s d).1).accepted_delegations ↔
      x ∈ s.accepted_delegations ∨
        (x = d ∧ d ∈ s.requested_delegations ∧ d ∈ SUPPORTED_DELEGATIONS) := by
  unfold accept_delegation
  by_cases h : d ∈ s.requested_delegations ∧ d ∈ SUPPORTED_DELEGATIONS
  · by_cases h2 : d ∈ s.accepted_delegations
    · simp [h, h2]
      rintro rfl
      exact h2
    · simp [h, h2]
  · simp [h]

lemma acceptLoop_requested (ds : List String) :
    ∀ s : EmbeddedCheckoutSession,
      (acceptLoop s ds).requested_delegations = s.requested_delegations := by
  induction ds with
  | nil => intro s; rfl
  | cons d rest ih =>
    intro s
    show (acceptLoop (accept_delegation s d).1 rest).requested_delegations = _
    rw [ih, accept_delegation_requested]

lemma acceptLoop_mem (ds : List String) :
    ∀ (s : EmbeddedCheckoutSession) (x : String),
      x ∈ (acceptLoop s ds).accepted_delegations ↔
        x ∈ s.accepted_delegations ∨
          (x ∈ ds ∧ x ∈ s.requested_delegations ∧ x ∈ SUPPORTED_DELEGATIONS) := by
  induction ds with
  | nil => intro s x; simp [acceptLoop]
  | cons d rest ih =>
    intro s x
    show x ∈ (acceptLoop (accept_delegation s d).1 rest).accepted_delegations ↔ _
    rw [ih, accept_delegation_mem, accept_delegation_requested]
    simp only [List.mem_cons]
    constructor
    · rintro ((hx | ⟨rfl, hreq, hsup⟩) | ⟨hrest, hreq, hsup⟩)
      · exact Or.inl hx
      · exact Or.inr ⟨Or.inl rfl, hreq, hsup⟩
      · exact Or.inr ⟨Or.inr hrest, hreq, hsup⟩
    · rintro (hx | ⟨rfl | hrest, hreq, hsup⟩)
      · exact Or.inl <| Or.inl hx
      · exact Or.inl <| Or.inr ⟨rfl, hreq, hsup⟩
      · exact Or.inr ⟨hrest, hreq, hsup⟩

/-- C6: after the handshake (`create_ready_request` followed by
`handle_ready_response`), the accepted delegations of a freshly created
session are exactly the requested delegations that the server supports (the
intersection, never the union); in particular requesting
`payment.credential` and `unsupported.x` accepts only
`payment.credential`. -/
theorem C6_accepted_is_intersection (checkout_id ec_version : String)
    (requested : List String) (auth : Option String) :
    (∀ d, d ∈ (handle_ready_response
        (create_ready_request
          (EmbeddedCheckoutSession.init checkout_id ec_version requested auth)).1).accepted_delegations ↔
      (d ∈ requested ∧ d ∈ SUPPORTED_DELEGATIONS)) ∧
    (requested = ["payment.credential", "unsupported.x"] →
      (handle_ready_response
        (create_ready_request
          (EmbeddedCheckoutSession.init checkout_id ec_version requested auth)).1).accepted_delegations =
        ["payment.credential"]) := by
  constructor
  · intro d
    show d ∈ (accept_all_supported_delegations
        (EmbeddedCheckoutSession.init checkout_id ec_version requested auth)).accepted_delegations ↔ _
    unfold accept_all_supported_delegations
    rw [acceptLoop_mem]
    simp only [EmbeddedCheckoutSession.init, List.not_mem_nil, false_or]
    tauto
  · rintro rfl
    rfl

/-- C6 witness: the concrete handshake of the specification example. -/
theorem C6_accepted_witness :
    (handle_ready_response
      (create_ready_request
        (EmbeddedCheckoutSession.init "c1" "2026-01-11"
          ["payment.credential", "unsupported.x"] none)).1).accepted_delegations =
      ["payment.credential"] :=
  (C6_accepted_is_intersection "c1" "2026-01-11"
    ["payment.credential", "unsupported.x"] none).2 rfl

/-- C8: a delegated request (payment credential or fulfillment address
change) is produced only while the corresponding delegation is accepted;
with the delegation not accepted, the handler returns `None` and the
session — including its message log — is left untouched, so nothing is
sent. -/
theorem C8_delegated_requests_gated {α : Type} (rid : String)
    (s : EmbeddedCheckoutSession) (checkout : α) :
    (EP_DELEGATE_PAYMENT_CREDENTIAL ∉ s.accepted_delegations →
      create_payment_credential_request rid s checkout = (none, s)) ∧
    ((create_payment_credential_request rid s checkout).1.isSome →
      EP_DELEGATE_PAYMENT_CREDENTIAL ∈ s.accepted_delegations) ∧
    (EP_DELEGATE_FULFILLMENT_ADDRESS ∉ s.accepted_delegations →
      create_address_change_request rid s checkout = (none, s)) ∧
    ((create_address_change_request rid s checkout).1.isSome →
      EP_DELEGATE_FULFILLMENT_ADDRESS ∈ s.accepted_delegations) := by
  refine ⟨?_, ?_, ?_, ?_⟩
  · intro hna
    simp [create_payment_credential_request, is_delegation_active, hna]
  · intro hsome
    by_contra hna
    simp [create_payment_credential_request, is_delegation_active, hna] at hsome
  · intro hna
    simp [create_address_change_request, is_delegation_active, hna]
  · intro hsome
    by_contra hna
    simp [create_address_change_request, is_delegation_active, hna] at hsome

/-- C8 witness: a session without accepted delegations produces no request
and is unchanged. -/
theorem C8_delegated_requests_witness :
    create_payment_credential_request "r1"
        (EmbeddedCheckoutSession.init "c1" "2026-01-11" ["payment.credential"] none)
        () =
      (none, EmbeddedCheckoutSession.init "c1" "2026-01-11" ["payment.credential"] none) ∧
    create_address_change_request "r1"
        (EmbeddedCheckoutSession.init "c1" "2026-01-11" ["payment.credential"] none)
        () =
      (none, EmbeddedCheckoutSession.init "c1" "2026-01-11" ["payment.credential"] none) :=
  ⟨(C8_delegated_requests_gated "r1"
      (EmbeddedCheckoutSession.init "c1" "2026-01-11" ["payment.credential"] none)
      ()).1 (by decide),
   (C8_delegated_requests_gated "r1"
      (EmbeddedCheckoutSession.init "c1" "2026-01-11" ["payment.credential"] none)
      ()).2.2.1 (by decide)⟩

/-- C9: the delegation list of the embedding query parameter is filtered to
supported delegations — the route keeps exactly the supported entries of
the split list and drops unsupported ones — and opening the embedding is
never rejected because of an unsupported entry: the query parser succeeds
for every delegation string once the version is well-formed. -/
theorem C9_delegations_filtered_not_rejected (ec_delegate : Option String) :
    (∀ d, d ∈ route_delegations ec_delegate → d ∈ SUPPORTED_DELEGATIONS) ∧
    (∀ s, ec_delegate = some s →
      route_delegations ec_delegate =
        (splitDelegations s).filter (fun x => x ∈ SUPPORTED_DELEGATIONS)) ∧
    (∀ v auth, ¬ v = "" → countChar v (Char.ofNat 45) = 2 →
      ∃ p, parse_ep_query_params (some v) ec_delegate auth = .ok p) := by
  refine ⟨?_, ?_, ?_⟩
  · intro d hd
    unfold route_delegations at hd
    cases ec_delegate with
    | none => simp at hd
    | some s =>
      by_cases hs : s = ""
      · simp [hs] at hd
      · simp only [hs, if_false] at hd
        exact of_decide_eq_true (List.mem_filter.mp hd).2
  · intro s hs
    subst hs
    unfold route_delegations
    by_cases hs : s = ""
    · subst hs; decide
    · simp [hs]
  · intro v auth hv hc
    unfold parse_ep_query_params
    simp only [hv, if_false, hc]
    simp

/-- C9 witness: a delegate list holding an unsupported entry is filtered,
and parsing succeeds for it. -/
theorem C9_delegations_witness :
    route_delegations (some "payment.credential,unsupported.x") =
      (splitDelegations "payment.credential,unsupported.x").filter
        (fun x => x ∈ SUPPORTED_DELEGATIONS) ∧
    (∃ p, parse_ep_query_params (some "2026-01-11")
      (some "payment.credential,unsupported.x") none = .ok p) :=
  ⟨(C9_delegations_filtered_not_rejected
      (some "payment.credential,unsupported.x")).2.1 _ rfl,
   (C9_delegations_filtered_not_rejected
      (some "payment.credential,unsupported.x")).2.2 "2026-01-11" none
      (by decide) (by decide)⟩

lemma storeInv_get {st : RetailStore} {id : String} {c : Checkout}
    (hinv : StoreInv st) (h : store_get_checkout st id = some c) :
    CheckoutInv c := by
  unfold store_get_checkout at h
  rcases hfind : st.checkouts.find? (fun kv => kv.1 = id) with - | kv
  · rw [hfind] at h
    cases h
  · rw [hfind] at h
    cases h
    exact hinv kv (List.mem_of_find?_eq_some hfind)

lemma storeInv_set {st : RetailStore} {id : String} {c : Checkout}
    (hinv : StoreInv st) (hc : CheckoutInv c) : StoreInv (store_set st id c) := by
  intro kv hkv
  unfold store_set at hkv
  obtain ⟨p, hp, hpe⟩ := List.mem_map.mp hkv
  by_cases hpid : p.1 = id
  · simp only [hpid, if_true] at hpe
    rw [← hpe]
    exact hc
  · simp only [hpid, if_false] at hpe
    rw [← hpe]
    exact hinv p hp

lemma checkoutInv_status_nonterminal {c : Checkout} (h : CheckoutInv c)
    (hn : c.status.isTerminal = false) : c.order.isSome = false := by
  have hcpl : ¬ c.status = .completed := by
    intro hc
    rw [hc] at hn
    simp [CheckoutStatus.isTerminal] at hn
  unfold CheckoutInv at h
  simp only [hcpl, iff_false] at h
  simpa using h

lemma checkoutInv_derive {c : Checkout} (h : CheckoutInv c) :
    CheckoutInv (derive_status c) := by
  unfold derive_status
  by_cases ht : c.status.isTerminal
  · simp only [ht, if_true]
    exact h
  · have horder : c.order.isSome = false :=
      checkoutInv_status_nonterminal h (by simpa using ht)
    by_cases hr : (validate_ready c).isNone <;>
      simp [ht, hr, CheckoutInv, horder]

lemma checkoutInv_derive_items {c : Checkout} (items : List LineItem)
    (h : CheckoutInv c) :
    CheckoutInv (derive_status { c with line_items := items }) :=
  checkoutInv_derive (c := { c with line_items := items }) h

lemma checkoutInv_derive_destination {c : Checkout} (dst : Option PostalAddress)
    (h : CheckoutInv c) :
    CheckoutInv (derive_status { c with destination := dst }) :=
  checkoutInv_derive (c := { c with destination := dst }) h

lemma add_to_checkout_inv {st st2 : RetailStore} {iid : String} {q : Nat}
    {cid : Option String} {c2 : Checkout} (hinv : StoreInv st)
    (h : add_to_checkout st iid q cid = .ok (st2, c2)) :
    StoreInv st2 ∧ CheckoutInv c2 := by
  unfold add_to_checkout at h
  by_cases hcat : iid ∈ st.catalog
  swap
  · simp [hcat] at h
  simp only [hcat, not_true, if_false, ite_false, if_neg, not_false_iff] at h
  rcases cid with - | cid
  · simp only at h
    have hbase : CheckoutInv (derive_status
        { id := "checkout_" ++ toString st.next_id, status := .incomplete,
          line_items := [⟨iid, q⟩], buyer := none, destination := none,
          payment := {}, order := none }) :=
      checkoutInv_derive (by simp [CheckoutInv])
    cases h
    constructor
    · intro kv hkv
      rcases List.mem_append.mp hkv with hold | hnew
      · exact hinv kv hold
      · rw [List.mem_singleton.mp hnew]
        exact hbase
    · exact hbase
  · simp only at h
    rcases hget : store_get_checkout st cid with - | c
    · rw [hget] at h
      cases h
    · rw [hget] at h
      have hc := storeInv_get hinv hget
      by_cases ht : c.status.isTerminal
      · simp [ht] at h
      · simp only [ht, Bool.false_eq_true, if_false, ite_false] at h
        cases h
        exact ⟨storeInv_set hinv (checkoutInv_derive_items _ hc),
          checkoutInv_derive_items _ hc⟩

lemma store_update_checkout_inv {st st2 : RetailStore} {cid iid : String}
    {q : Nat} {c2 : Checkout} (hinv : StoreInv st)
    (h : store_update_checkout st cid iid q = .ok (st2, c2)) :
    StoreInv st2 ∧ CheckoutInv c2 := by
  unfold store_update_checkout at h
  rcases hget : store_get_checkout st cid with - | c
  · rw [hget] at h
    cases h
  · rw [hget] at h
    have hc := storeInv_get hinv hget
    by_cases ht : c.status.isTerminal
    · simp [ht] at h
    · simp only [ht, Bool.false_eq_true, if_false, ite_false] at h
      cases h
      exact ⟨storeInv_set hinv (checkoutInv_derive_items _ hc),
        checkoutInv_derive_items _ hc⟩

lemma add_delivery_address_inv {st st2 : RetailStore} {cid : String}
    {addr : PostalAddress} {c2 : Checkout} (hinv : StoreInv st)
    (h : add_delivery_address st cid addr = .ok (st2, c2)) :
    StoreInv st2 ∧ CheckoutInv c2 := by
  unfold add_delivery_address at h
  rcases hget : store_get_checkout st cid with - | c
  · rw [hget] at h
    cases h
  · rw [hget] at h
    have hc := storeInv_get hinv hget
    by_cases ht : c.status.isTerminal
    · simp [ht] at h
    · simp only [ht, Bool.false_eq_true, if_false, ite_false] at h
      cases h
      exact ⟨storeInv_set hinv (checkoutInv_derive_destination _ hc),
        checkoutInv_derive_destination _ hc⟩

lemma start_payment_inv {st st2 : RetailStore} {cid : String} {c2 : Checkout}
    (hinv : StoreInv st) (h : start_payment st cid = .ok (st2, c2)) :
    StoreInv st2 ∧ CheckoutInv c2 := by
  unfold start_payment at h
  rcases hget : store_get_checkout st cid with - | c
  · rw [hget] at h
    cases h
  · rw [hget] at h
    simp only at h
    have hc := storeInv_get hinv hget
    rcases hv : validate_ready c with - | reason
    · rw [hv] at h
      cases h
      have hc2 := checkoutInv_derive hc
      exact ⟨storeInv_set hinv hc2, hc2⟩
    · rw [hv] at h
      cases h

lemma place_order_inv {st st2 : RetailStore} {cid : String} {c2 : Checkout}
    (hinv : StoreInv st) (h : place_order st cid = .ok (st2, c2)) :
    StoreInv st2 ∧ CheckoutInv c2 ∧ c2.status = .completed ∧
      c2.order.isSome = true := by
  unfold place_order at h
  rcases hget : store_get_checkout st cid with - | c
  · rw [hget] at h
    cases h
  · rw [hget] at h
    by_cases hcpl : c.status = .completed
    · simp [hcpl] at h
    by_cases hcan : c.status = .canceled
    · simp [hcpl, hcan] at h
    simp only [hcpl, hcan, if_false, ite_false] at h
    cases h
    refine ⟨storeInv_set hinv (by simp [CheckoutInv]), by simp [CheckoutInv],
      rfl, rfl⟩

lemma store_cancel_checkout_inv {st st2 : RetailStore} {cid : String}
    {c2 : Checkout} (hinv : StoreInv st)
    (h : store_cancel_checkout st cid = .ok (st2, c2)) :
    StoreInv st2 ∧ CheckoutInv c2 := by
  unfold store_cancel_checkout at h
  rcases hget : store_get_checkout st cid with - | c
  · rw [hget] at h
    cases h
  · rw [hget] at h
    have hc := storeInv_get hinv hget
    by_cases ht : c.status.isTerminal
    · simp [ht] at h
    · simp only [ht, Bool.false_eq_true, if_false, ite_false] at h
      cases h
      have horder := checkoutInv_status_nonterminal hc (by simpa using ht)
      have hc2 : CheckoutInv { c with status := .canceled } := by
        simp [CheckoutInv, horder]
      exact ⟨storeInv_set hinv hc2, hc2⟩

lemma setBuyer_inv {st : RetailStore} {cid : String} {b : BuyerInput}
    (hinv : StoreInv st) : StoreInv (setBuyer st cid b) := by
  unfold setBuyer
  rcases hget : store_get_checkout st cid with - | c
  · exact hinv
  · have hc : CheckoutInv c := storeInv_get hinv hget
    exact storeInv_set hinv hc

lemma setInstrument_inv {st : RetailStore} {cid : String} {iid : Option String}
    (hinv : StoreInv st) : StoreInv (setInstrument st cid iid) := by
  unfold setInstrument
  rcases hget : store_get_checkout st cid with - | c
  · exact hinv
  · have hc : CheckoutInv c := storeInv_get hinv hget
    exact storeInv_set hinv hc

lemma addItemsLoop_inv (cid : String) :
    ∀ (items : List LineItemInput) (st : RetailStore), StoreInv st →
      StoreInv (addItemsLoop st cid items).1 := by
  intro items
  induction items with
  | nil => intro st hinv; exact hinv
  | cons li rest ih =>
    intro st hinv
    unfold addItemsLoop
    rcases li.item_id with - | iid
    · exact ih st hinv
    · simp only
      rcases hadd : add_to_checkout st iid li.quantity (some cid) with e | ⟨st2, c2⟩
      · exact hinv
      · exact ih st2 (add_to_checkout_inv hinv hadd).1

lemma fulfillLoop_inv (cid : String) :
    ∀ (methods : List FulfillmentMethodInput) (st : RetailStore), StoreInv st →
      StoreInv (fulfillLoop st cid methods).1 := by
  intro methods
  induction methods with
  | nil => intro st hinv; exact hinv
  | cons m rest ih =>
    intro st hinv
    unfold fulfillLoop
    rcases m.destinations with - | ⟨d, ds⟩
    · exact ih st hinv
    · simp only
      rcases hadd : add_delivery_address st cid (destToAddress d) with e | ⟨st2, c2⟩
      · exact hinv
      · exact ih st2 (add_delivery_address_inv hinv hadd).1

lemma updateItemsLoop_inv (cid : String) :
    ∀ (items : List LineItemInput) (st : RetailStore), StoreInv st →
      StoreInv (updateItemsLoop st cid items).1 := by
  intro items
  induction items with
  | nil => intro st hinv; exact hinv
  | cons li rest ih =>
    intro st hinv
    unfold updateItemsLoop
    rcases li.item_id with - | iid
    · exact ih st hinv
    · simp only
      rcases hget : store_get_checkout st cid with - | c
      · exact hinv
      · simp only
        by_cases hmem : c.line_items.any (fun x => x.item_id = iid)
        · simp only [hmem, if_true]
          rcases hupd : store_update_checkout st cid iid li.quantity with e | ⟨st2, c2⟩
          · exact hinv
          · exact ih st2 (store_update_checkout_inv hinv hupd).1
        · simp only [hmem, Bool.false_eq_true, if_false, ite_false]
          rcases hadd : add_to_checkout st iid li.quantity (some cid) with e | ⟨st2, c2⟩
          · exact hinv
          · exact ih st2 (add_to_checkout_inv hinv hadd).1

lemma mcp_create_checkout_inv {st : RetailStore} {line_items : List LineItemInput}
    {buyer : Option BuyerInput} {fulfillment : Option FulfillmentInput}
    (hinv : StoreInv st) :
    StoreInv (mcp_create_checkout st line_items buyer fulfillment).2 := by
  unfold mcp_create_checkout
  rcases line_items with - | ⟨first, rest⟩
  · exact hinv
  · simp only
    rcases first.item_id with - | iid
    · exact hinv
    · simp only
      rcases hadd : add_to_checkout st iid first.quantity none with e | ⟨st1, c0⟩
      · exact hinv
      · simp only
        have h1 := (add_to_checkout_inv hinv hadd).1
        rcases hloop : addItemsLoop st1 c0.id rest with ⟨st2, e2⟩
        have h2 : StoreInv st2 := by
          have hl := addItemsLoop_inv c0.id rest st1 h1
          rw [hloop] at hl
          exact hl
        rcases e2 with - | e
        · simp only
          have h3 : StoreInv (match buyer with
              | none => st2
              | some b => setBuyer st2 c0.id b) := by
            rcases buyer with - | b
            · exact h2
            · exact setBuyer_inv h2
          generalize hB : (match buyer with
              | none => st2
              | some b => setBuyer st2 c0.id b) = stB at h3 ⊢
          generalize (match fulfillment with
              | none => []
              | some f => f.methods) = ms
          rcases hf : fulfillLoop stB c0.id ms with ⟨st4, e4⟩
          have h4 : StoreInv st4 := by
            have hl := fulfillLoop_inv c0.id ms stB h3
            rw [hf] at hl
            exact hl
          rcases e4 with - | e
          · simp only
            rcases store_get_checkout st4 c0.id with - | c <;> exact h4
          · exact h4
        · exact h2

lemma mcp_get_checkout_inv {st : RetailStore} {id : String} (hinv : StoreInv st) :
    StoreInv (mcp_get_checkout st id).2 := by
  unfold mcp_get_checkout
  by_cases hid : id = ""
  · simp only [hid, if_true]
    exact hinv
  · simp only [hid, if_false, ite_false]
    rcases store_get_checkout st id with - | c <;> exact hinv

lemma mcp_update_checkout_inv {st : RetailStore} {id : String}
    {line_items : List LineItemInput} {buyer : Option BuyerInput}
    {fulfillment : Option FulfillmentInput} (hinv : StoreInv st) :
    StoreInv (mcp_update_checkout st id line_items buyer fulfillment).2 := by
  unfold mcp_update_checkout
  by_cases hid : id = ""
  · simp only [hid, if_true]
    exact hinv
  · simp only [hid, if_false, ite_false]
    rcases store_get_checkout st id with - | c
    · exact hinv
    · simp only
      have h1 : StoreInv (match buyer with
          | none => st
          | some b => setBuyer st id b) := by
        rcases buyer with - | b
        · exact hinv
        · exact setBuyer_inv hinv
      generalize hB : (match buyer with
          | none => st
          | some b => setBuyer st id b) = stB at h1 ⊢
      rcases hloop : updateItemsLoop stB id line_items with ⟨st2, e2⟩
      have h2 : StoreInv st2 := by
        have hl := updateItemsLoop_inv id line_items stB h1
        rw [hloop] at hl
        exact hl
      rcases e2 with - | e
      · simp only
        generalize (match fulfillment with
            | none => []
            | some f => f.methods) = ms
        rcases hf : fulfillLoop st2 id ms with ⟨st3, e3⟩
        have h3 : StoreInv st3 := by
          have hl := fulfillLoop_inv id ms st2 h2
          rw [hf] at hl
          exact hl
        rcases e3 with - | e
        · simp only
          rcases store_get_checkout st3 id with - | c <;> exact h3
        · exact h3
      · exact h2

lemma mcp_complete_checkout_inv {st : RetailStore} {id key : String}
    {payment : Option PaymentInput} (hinv : StoreInv st) :
    StoreInv (mcp_complete_checkout st id key payment).2 := by
  unfold mcp_complete_checkout
  by_cases hid : id = ""
  · simp only [hid, if_true]
    exact hinv
  · simp only [hid, if_false, ite_false]
    by_cases hkey : key = ""
    · simp only [hkey, if_true]
      exact hinv
    · simp only [hkey, if_false, ite_false]
      rcases store_get_checkout st id with - | c
      · exact hinv
      · simp only
        by_cases hcpl : c.status = .completed
        · simp only [hcpl, if_true]
          exact hinv
        · simp only [hcpl, if_false, ite_false]
          by_cases hcan : c.status = .canceled
          · simp only [hcan, if_true]
            exact hinv
          · simp only [hcan, if_false, ite_false]
            rcases hsp : start_payment st id with e | ⟨st1, c1⟩
            · exact hinv
            · simp only
              have h1 := (start_payment_inv hinv hsp).1
              have h2 : StoreInv (match payment with
                  | none => st1
                  | some p =>
                    match p.selected_instrument_id with
                    | none => st1
                    | some sel =>
                      if sel ≠ "" ∧ p.instruments ≠ [] then
                        setInstrument st1 id (some sel)
                      else st1) := by
                rcases payment with - | p
                · exact h1
                · simp only
                  rcases p.selected_instrument_id with - | sel
                  · exact h1
                  · simp only
                    by_cases hsel : sel ≠ "" ∧ p.instruments ≠ []
                    · rw [if_pos hsel]
                      exact setInstrument_inv h1
                    · rw [if_neg hsel]
                      exact h1
              generalize hP : (match payment with
                  | none => st1
                  | some p =>
                    match p.selected_instrument_id with
                    | none => st1
                    | some sel =>
                      if sel ≠ "" ∧ p.instruments ≠ [] then
                        setInstrument st1 id (some sel)
                      else st1) = stP at h2 ⊢
              rcases hpo : place_order stP id with e | ⟨st3, c3⟩
              · exact h2
              · exact (place_order_inv h2 hpo).1

lemma mcp_cancel_checkout_inv {st : RetailStore} {id : String}
    (hinv : StoreInv st) : StoreInv (mcp_cancel_checkout st id).2 := by
  unfold mcp_cancel_checkout
  by_cases hid : id = ""
  · simp only [hid, if_true]
    exact hinv
  · simp only [hid, if_false, ite_false]
    rcases store_get_checkout st id with - | c
    · exact hinv
    · simp only
      rcases hcan : store_cancel_checkout st id with e | ⟨st1, c1⟩
      · exact hinv
      · exact (store_cancel_checkout_inv hinv hcan).1

lemma applyOp_inv {st : RetailStore} (op : McpOp) (hinv : StoreInv st) :
    StoreInv (applyOp st op).2 := by
  cases op with
  | create line_items buyer fulfillment => exact mcp_create_checkout_inv hinv
  | get id => exact mcp_get_checkout_inv hinv
  | update id line_items buyer fulfillment => exact mcp_update_checkout_inv hinv
  | complete id key payment => exact mcp_complete_checkout_inv hinv
  | cancel id => exact mcp_cancel_checkout_inv hinv

lemma reachable_storeInv {st : RetailStore} (h : ReachableStore st) :
    StoreInv st := by
  induction h with
  | init catalog => intro kv hkv; cases hkv
  | step op _ ih => exact applyOp_inv op ih

lemma place_order_completes {st st2 : RetailStore} {cid : String} {c2 : Checkout}
    (h : place_order st cid = .ok (st2, c2)) :
    c2.status = .completed ∧ c2.order.isSome = true := by
  unfold place_order at h
  rcases hget : store_get_checkout st cid with - | c
  · rw [hget] at h
    cases h
  · rw [hget] at h
    by_cases hcpl : c.status = .completed
    · simp [hcpl] at h
    by_cases hcan : c.status = .canceled
    · simp [hcpl, hcan] at h
    simp only [hcpl, hcan, if_false, ite_false] at h
    cases h
    exact ⟨rfl, rfl⟩

/-- C2: in every store state reachable through the public tool calls
(create, get, update, complete, cancel), a checkout carries an order record
exactly when its status is `completed`; and placing the order sets the
`completed` status and the order record in the same transition. -/
theorem C2_order_iff_completed (st : RetailStore) (h : ReachableStore st) :
    (∀ id c, store_get_checkout st id = some c →
      (c.order.isSome ↔ c.status = .completed)) ∧
    (∀ (st2 st3 : RetailStore) (cid : String) (c : Checkout),
      place_order st2 cid = .ok (st3, c) →
        c.status = .completed ∧ c.order.isSome = true) ∧
    (∀ (st2 st3 : RetailStore) (id key : String) (payment : Option PaymentInput)
      (c : Checkout),
      mcp_complete_checkout st2 id key payment = (.success c, st3) →
        c.status = .completed ∧ c.order.isSome = true) := by
  refine ⟨?_, ?_, ?_⟩
  · intro id c hget
    exact storeInv_get (reachable_storeInv h) hget
  · intro st2 st3 cid c hpo
    exact place_order_completes hpo
  · intro st2 st3 id key payment c hc
    unfold mcp_complete_checkout at hc
    by_cases hid : id = ""
    · rw [if_pos hid] at hc
      simp at hc
    rw [if_neg hid] at hc
    by_cases hkey : key = ""
    · rw [if_pos hkey] at hc
      simp at hc
    rw [if_neg hkey] at hc
    rcases hget : store_get_checkout st2 id with - | c0
    · rw [hget] at hc
      simp at hc
    rw [hget] at hc
    simp only at hc
    by_cases hcpl : c0.status = .completed
    · rw [if_pos hcpl] at hc
      simp at hc
    rw [if_neg hcpl] at hc
    by_cases hcan : c0.status = .canceled
    · rw [if_pos hcan] at hc
      simp at hc
    rw [if_neg hcan] at hc
    rcases hsp : start_payment st2 id with e | ⟨st1, c1⟩
    · rw [hsp] at hc
      simp at hc
    rw [hsp] at hc
    simp only at hc
    generalize hP : (match payment with
        | none => st1
        | some p =>
          match p.selected_instrument_id with
          | none => st1
          | some sel =>
            if sel ≠ "" ∧ p.instruments ≠ [] then
              setInstrument st1 id (some sel)
            else st1) = stP at hc
    rcases hpo : place_order stP id with e | ⟨st3p, c3⟩
    · rw [hpo] at hc
      simp at hc
    rw [hpo] at hc
    simp only [Prod.mk.injEq, McpResponse.success.injEq] at hc
    rw [← hc.1]
    exact place_order_completes hpo

/-- C2 witness: the checkout created by one concrete create call has no
order and is not completed. -/
theorem C2_order_iff_completed_witness :
    (({ id := "checkout_0", status := .incomplete, line_items := [⟨"sku1", 1⟩],
        buyer := none, destination := none, payment := {},
        order := none } : Checkout).order.isSome ↔
      ({ id := "checkout_0", status := .incomplete, line_items := [⟨"sku1", 1⟩],
         buyer := none, destination := none, payment := {},
         order := none } : Checkout).status = .completed) :=
  (C2_order_iff_completed _
    (ReachableStore.step (.create [⟨some "sku1", 1⟩] none none)
      (ReachableStore.init ["sku1"]))).1 "checkout_0" _ (by decide)

/-- C1 counterexample: completing a checkout and then calling
`complete_checkout` again with the same idempotency key does not return the
prior (successful) result — the second call fails with
`CHECKOUT_ALREADY_COMPLETED` like any other key would, because the adapter
checks the key for presence only and never stores it. -/
theorem C1_same_key_not_replayed_counterexample :
    (mcp_complete_checkout
      ⟨["sku1"],
       [("c1", { id := "c1", status := .incomplete, line_items := [⟨"sku1", 1⟩],
                 buyer := some { email := some "a@b.c" }, destination := some {},
                 payment := { selected_instrument_id := some "pm_1" },
                 order := none })], 1⟩
      "c1" "key1" none).1 =
      .success { id := "c1", status := .completed, line_items := [⟨"sku1", 1⟩],
                 buyer := some { email := some "a@b.c" }, destination := some {},
                 payment := { selected_instrument_id := some "pm_1" },
                 order := some ⟨"order_c1"⟩ } ∧
    (mcp_complete_checkout
      (mcp_complete_checkout
        ⟨["sku1"],
         [("c1", { id := "c1", status := .incomplete, line_items := [⟨"sku1", 1⟩],
                   buyer := some { email := some "a@b.c" }, destination := some {},
                   payment := { selected_instrument_id := some "pm_1" },
                   order := none })], 1⟩
        "c1" "key1" none).2
      "c1" "key1" none).1 =
      .error "CHECKOUT_ALREADY_COMPLETED"
        "This checkout has already been completed" "recoverable" ∧
    ¬ (mcp_complete_checkout
      (mcp_complete_checkout
        ⟨["sku1"],
         [("c1", { id := "c1", status := .incomplete, line_items := [⟨"sku1", 1⟩],
                   buyer := some { email := some "a@b.c" }, destination := some {},
                   payment := { selected_instrument_id := some "pm_1" },
                   order := none })], 1⟩
        "c1" "key1" none).2
      "c1" "key1" none).1 =
      (mcp_complete_checkout
        ⟨["sku1"],
         [("c1", { id := "c1", status := .incomplete, line_items := [⟨"sku1", 1⟩],
                   buyer := some { email := some "a@b.c" }, destination := some {},
                   payment := { selected_instrument_id := some "pm_1" },
                   order := none })], 1⟩
        "c1" "key1" none).1 := by
  refine ⟨by decide, by decide, by decide⟩

/-- C1 amended: `complete_checkout` requires a non-empty idempotency key,
and on an already-completed checkout every further `complete_checkout` call
fails with `CHECKOUT_ALREADY_COMPLETED`, whether the key equals the one
that completed it or not; the prior result is never replayed (the key is
validated for presence only and never stored). -/
theorem C1_complete_checkout_key_behavior (st : RetailStore) (id key : String)
    (payment : Option PaymentInput) :
    (¬ id = "" → key = "" →
      mcp_complete_checkout st id key payment =
        (.error "INVALID_REQUEST"
          "Idempotency key is required for complete_checkout" "recoverable", st)) ∧
    (∀ c, ¬ id = "" → ¬ key = "" → store_get_checkout st id = some c →
      c.status = .completed →
      mcp_complete_checkout st id key payment =
        (.error "CHECKOUT_ALREADY_COMPLETED"
          "This checkout has already been completed" "recoverable", st)) := by
  constructor
  · intro hid hkey
    unfold mcp_complete_checkout
    rw [if_neg hid, if_pos hkey]
  · intro c hid hkey hget hcpl
    unfold mcp_complete_checkout
    rw [if_neg hid, if_neg hkey, hget]
    simp only
    rw [if_pos hcpl]

/-- C1 witness: on a store holding a completed checkout, the empty key is
rejected and a fresh key fails with `CHECKOUT_ALREADY_COMPLETED`. -/
theorem C1_complete_checkout_key_witness :
    mcp_complete_checkout
      ⟨[], [("c1", { id := "c1", status := .completed, line_items := [⟨"sku1", 1⟩],
                     buyer := some { email := some "a@b.c" },
                     destination := some {},
                     payment := { selected_instrument_id := some "pm_1" },
                     order := some ⟨"order_c1"⟩ })], 0⟩
      "c1" "key2" none =
      (.error "CHECKOUT_ALREADY_COMPLETED"
        "This checkout has already been completed" "recoverable",
       ⟨[], [("c1", { id := "c1", status := .completed, line_items := [⟨"sku1", 1⟩],
                      buyer := some { email := some "a@b.c" },
                      destination := some {},
                      payment := { selected_instrument_id := some "pm_1" },
                      order := some ⟨"order_c1"⟩ })], 0⟩) :=
  (C1_complete_checkout_key_behavior _ "c1" "key2" none).2
    { id := "c1", status := .completed, line_items := [⟨"sku1", 1⟩],
      buyer := some { email := some "a@b.c" }, destination := some {},
      payment := { selected_instrument_id := some "pm_1" },
      order := some ⟨"order_c1"⟩ }
    (by decide) (by decide) (by decide) rfl

lemma data_singleton (c : Char) : (String.singleton c).data = [c] := rfl

lemma b64Char_mem (n : Nat) : b64Char n ∈ B64URL_ALPHABET := by
  unfold b64Char
  rcases h : B64URL_ALPHABET[n]? with - | c
  · rw [List.getD_eq_getElem?_getD, h]
    decide
  · rw [List.getD_eq_getElem?_getD, h]
    simpa using List.getElem?_mem h

lemma base64url_encode_chars :
    ∀ (bytes : List Nat) (c : Char), c ∈ (base64url_encode bytes).data →
      c ∈ B64URL_ALPHABET
  | [], c => by simp [base64url_encode]
  | [a], c => by
    simp only [base64url_encode, String.data_append, data_singleton,
      List.mem_append, List.mem_singleton]
    rintro (rfl | rfl) <;> exact b64Char_mem _
  | [a, b], c => by
    simp only [base64url_encode, String.data_append, data_singleton,
      List.mem_append, List.mem_singleton]
    rintro ((rfl | rfl) | rfl) <;> exact b64Char_mem _
  | a :: b :: c0 :: rest, c => by
    simp only [base64url_encode, String.data_append, data_singleton,
      List.mem_append, List.mem_singleton]
    rintro ((((rfl | rfl) | rfl) | rfl) | hrest)
    · exact b64Char_mem _
    · exact b64Char_mem _
    · exact b64Char_mem _
    · exact b64Char_mem _
    · exact base64url_encode_chars rest c hrest

lemma base64url_encode_ne_empty :
    ∀ bytes : List Nat, bytes ≠ [] → ¬ base64url_encode bytes = ""
  | [], h => absurd rfl h
  | [a], _ => by
    simp [base64url_encode, String.ext_iff, String.data_append, data_singleton]
  | [a, b], _ => by
    simp [base64url_encode, String.ext_iff, String.data_append, data_singleton]
  | a :: b :: c0 :: rest, _ => by
    simp [base64url_encode, String.ext_iff, String.data_append, data_singleton]

lemma utf8Char_ne_nil (c : Char) : utf8Char c ≠ [] := by
  unfold utf8Char
  dsimp only
  split_ifs <;> simp

lemma strUtf8_ne_nil (s : String) (h : s.data ≠ []) : strUtf8 s ≠ [] := by
  unfold strUtf8
  rcases hd : s.data with - | ⟨c, rest⟩
  · exact absurd hd h
  · simp only [hd, List.map_cons, List.flatten_cons]
    simp [List.append_eq_nil, utf8Char_ne_nil c]

lemma headerJson_data_ne_nil (signer : MerchantAuthorizationSigner) :
    (headerJson signer).data ≠ [] := by
  unfold headerJson
  simp [String.data_append]

lemma compressStep_length (st : List Nat) (kw : Nat × Nat) (h : st.length = 8) :
    (compressStep st kw).length = 8 := by
  unfold compressStep
  split <;> simp_all

lemma foldl_compressStep_length (l : List (Nat × Nat)) :
    ∀ st : List Nat, st.length = 8 → (l.foldl compressStep st).length = 8 := by
  induction l with
  | nil => intro st h; exact h
  | cons kw rest ih =>
    intro st h
    exact ih _ (compressStep_length st kw h)

lemma compressBlock_length (h : List Nat) (block : List Nat)
    (hl : h.length = 8) : (compressBlock h block).length = 8 := by
  unfold compressBlock
  rw [List.length_map, List.length_zip, hl,
    foldl_compressStep_length _ _ hl]
  decide

lemma foldl_compressBlock_length (blocks : List (List Nat)) :
    ∀ h : List Nat, h.length = 8 →
      (blocks.foldl compressBlock h).length = 8 := by
  induction blocks with
  | nil => intro h hl; exact hl
  | cons b rest ih =>
    intro h hl
    exact ih _ (compressBlock_length h b hl)

lemma sha256_ne_nil (msg : List Nat) : sha256 msg ≠ [] := by
  unfold sha256
  have h8 := foldl_compressBlock_length (chunks64 (sha256Pad msg)) SHA256_H0
    (by decide)
  rcases hh : (chunks64 (sha256Pad msg)).foldl compressBlock SHA256_H0 with - | ⟨w, rest⟩
  · rw [hh] at h8
    simp at h8
  · simp [hh, be4]

lemma find_map_set (k : String) (v : JsonV) :
    ∀ d : List (String × JsonV), d.any (fun kv => kv.1 = k) = true →
      (d.map (fun kv => if kv.1 = k then (k, v) else kv)).find?
        (fun kv => kv.1 = k) = some (k, v) := by
  intro d
  induction d with
  | nil => intro h; simp at h
  | cons p rest ih =>
    intro h
    by_cases hp : p.1 = k
    · simp [hp]
    · have h2 : rest.any (fun kv => kv.1 = k) = true := by
        simp only [List.any_cons, Bool.or_eq_true] at h
        rcases h with h | h
        · exact absurd (of_decide_eq_true h) hp
        · exact h
      simp [hp, ih h2]

lemma find_notany_append (k : String) (v : JsonV) :
    ∀ d : List (String × JsonV), d.any (fun kv => kv.1 = k) = false →
      (d ++ [(k, v)]).find? (fun kv => kv.1 = k) = some (k, v) := by
  intro d
  induction d with
  | nil => intro h; simp
  | cons p rest ih =>
    intro h
    simp only [List.any_cons, Bool.or_eq_false_iff] at h
    have hp : ¬ p.1 = k := of_decide_eq_false h.1
    simp [hp, ih h.2]

lemma dictGet_setDictKey (d : List (String × JsonV)) (k : String) (v : JsonV) :
    dictGet (setDictKey d k v) k = some v := by
  unfold setDictKey dictGet
  by_cases hany : d.any (fun kv => kv.1 = k)
  · rw [if_pos hany, find_map_set k v d hany]
  · rw [if_neg hany, find_notany_append k v d (by rwa [Bool.not_eq_true] at hany)]

/-- C3: the merchant authorization is a detached JWS
`<base64url(header)>..<base64url(signature)>` — two dots, empty payload
segment, both parts non-empty strings over the base64url alphabet (which
excludes the dot) — computed over the canonical JSON of the checkout with
its `ap2` field removed; the signature depends only on the ap2-stripped
body, re-deriving it from the canonical bytes and the same header
reproduces it byte for byte, and the stored
`ap2.merchant_authorization` equals the recomputed signature. -/
theorem C3_merchant_authorization_detached_jws
    (signer : MerchantAuthorizationSigner)
    (checkout c1 c2 : List (String × JsonV)) :
    (∃ h s, sign_checkout signer checkout = h ++ ".." ++ s ∧
      ¬ h = "" ∧ ¬ s = "" ∧
      (∀ ch ∈ h.data, ch ∈ B64URL_ALPHABET) ∧
      (∀ ch ∈ s.data, ch ∈ B64URL_ALPHABET) ∧
      ('.') ∉ B64URL_ALPHABET) ∧
    (sign_checkout signer checkout =
      base64url_encode (strUtf8 (headerJson signer)) ++ ".." ++
        base64url_encode (mock_sign (strUtf8
          (base64url_encode (strUtf8 (headerJson signer)) ++ "." ++
            base64url_encode (jcs_canonicalize
              (.obj (remove_ap2_field checkout))))))) ∧
    (remove_ap2_field c1 = remove_ap2_field c2 →
      sign_checkout signer c1 = sign_checkout signer c2) ∧
    (dictGet (add_merchant_authorization signer checkout) "ap2" =
      some (.obj [("merchant_authorization",
        .str (sign_checkout signer checkout))])) := by
  refine ⟨?_, rfl, ?_, ?_⟩
  · refine ⟨base64url_encode (strUtf8 (headerJson signer)),
      base64url_encode (mock_sign (strUtf8
        (base64url_encode (strUtf8 (headerJson signer)) ++ "." ++
          base64url_encode (jcs_canonicalize
            (.obj (remove_ap2_field checkout)))))),
      rfl, ?_, ?_, ?_, ?_, by decide⟩
    · exact base64url_encode_ne_empty _
        (strUtf8_ne_nil _ (headerJson_data_ne_nil signer))
    · exact base64url_encode_ne_empty _ (sha256_ne_nil _)
    · intro ch hch
      exact base64url_encode_chars _ ch hch
    · intro ch hch
      exact base64url_encode_chars _ ch hch
  · intro h
    unfold sign_checkout
    rw [h]
  · unfold add_merchant_authorization
    exact dictGet_setDictKey checkout "ap2" _

/-- C3 witness: adding an `ap2` field to a checkout does not change its
signature (the ap2-insensitivity conjunct at a concrete checkout). -/
theorem C3_merchant_authorization_witness :
    sign_checkout {} [("id", .str "c1"), ("ap2", .str "junk")] =
      sign_checkout {} [("id", .str "c1")] :=
  (C3_merchant_authorization_detached_jws {} []
    [("id", .str "c1"), ("ap2", .str "junk")] [("id", .str "c1")]).2.2.1 rfl

end UCP
